import Mathlib

/-!
Verification of the session-handshake wallet CLI against its natural-language
specification.  The definitions below are a shallow embedding of the
JavaScript sources:

* `commands/wallet.mjs`  — request creation, the callback server, and
  ciphertext ingestion (`walletCreate`, `walletCreateAndWait`,
  `decryptAndSaveSession`, `applySessionPermissionParams`);
* `lib/dapp-client.mjs`  — the transaction dispatcher
  (`syncStateAndGetStorage`, `runDappClientTx`);
* `lib/utils.mjs`        — argument parsing and network resolution.

External collaborators (NaCl sealed boxes, JSON codecs with the dapp-client
revivers/replacers, the wallet-client SDK, the indexer) are modelled as
oracle functions carried in environment records; the control flow around
them is translated faithfully, including JavaScript truthiness of strings
and numbers.  Machine integers do not overflow in any of the modelled code
paths, so times and chain ids are `Int`.
-/

/-! ### Kernel-reducible string helpers

The corresponding `String` library functions are implemented over byte
iterators and do not reduce definitionally; these list-based equivalents do,
so that closed instances of the theorems evaluate by `rfl`. -/

/-- ASCII lower-casing of one character (`String.prototype.toLowerCase` on
the ASCII names and addresses the code handles). -/
def asciiLower (c : Char) : Char :=
  if 65 ≤ c.toNat ∧ c.toNat ≤ 90 then Char.ofNat (c.toNat + 32) else c

/-- `s.toLowerCase()`. -/
def lowerStr (s : String) : String := String.mk (s.toList.map asciiLower)

/-- `s.startsWith(pre)`. -/
def strStartsWith (s pre : String) : Bool := pre.toList.isPrefixOf s.toList

/-- `s.endsWith(suf)`. -/
def strEndsWith (s suf : String) : Bool := suf.toList.isSuffixOf s.toList

/-- Drop the last `n` characters. -/
def strDropRight (s : String) (n : Nat) : String :=
  String.mk (s.toList.take (s.toList.length - n))

/-- Drop the first `n` characters. -/
def strDrop (s : String) (n : Nat) : String := String.mk (s.toList.drop n)

/-- `s.trim()`. -/
def strTrim (s : String) : String :=
  String.mk (((s.toList.dropWhile Char.isWhitespace).reverse.dropWhile
    Char.isWhitespace).reverse)

/-- `l.join(sep)`. -/
def strIntercalate (sep : String) (l : List String) : String :=
  String.mk (List.intercalate sep.toList (l.map String.toList))

/-! ## JavaScript value helpers -/

/-- Truthiness of an optional string (`undefined`/`null` and `""` are falsy). -/
def jsTruthyStr : Option String → Bool
  | none => false
  | some s => s ≠ ""

/-- JavaScript `a || b` for an optional string with a string default. -/
def jsOr (a : Option String) (b : String) : String :=
  if jsTruthyStr a then a.getD b else b

/-- JavaScript `a || b` where both sides are optional strings. -/
def jsOrOpt (a b : Option String) : Option String :=
  if jsTruthyStr a then a else b

/-- A JavaScript number: either a finite integer value or one of the
non-finite values.  The modelled code only ever produces integral numbers. -/
inductive JsNumber
  | fin (n : Int)
  | posInf
  | negInf
  | nan
deriving DecidableEq, Repr

/-- `Number.isFinite`. -/
def JsNumber.isFinite : JsNumber → Bool
  | .fin _ => true
  | _ => false

/-- Truthiness of a number (`0` and `NaN` are falsy). -/
def JsNumber.truthy : JsNumber → Bool
  | .fin n => n ≠ 0
  | .nan => false
  | _ => true

/-- The integer value of a finite number (junk elsewhere). -/
def JsNumber.toIntD : JsNumber → Int
  | .fin n => n
  | _ => 0

/-- A date string: either the ISO rendering of a millisecond timestamp
(as produced by `Date.prototype.toISOString`) or an arbitrary other string.
`Date.parse` recovers the timestamp from the former and is `NaN` on the
latter. -/
inductive DateStr
  | iso (ms : Int)
  | invalid (s : String)
deriving DecidableEq, Repr

/-- `Date.parse` on the `DateStr` model. -/
def dateParse : DateStr → JsNumber
  | .iso ms => .fin ms
  | .invalid _ => .nan

/-- `new Date(ms).toISOString()`. -/
def toISOString (ms : Int) : DateStr := .iso ms

/-! ## base64url (wallet.mjs `b64urlEncode` / `b64urlDecode`) -/

/-- The base64url alphabet. -/
def B64URL_ALPHABET : List Char :=
  "ABCDEFGHIJKLMNOPQRSTUVWXYZabcdefghijklmnopqrstuvwxyz0123456789-_".toList

/-- Character for a 6-bit value. -/
def b64c (n : Nat) : Char := B64URL_ALPHABET.getD n 'A'

/-- base64url-encode a byte list: `Buffer.toString('base64')` followed by the
`+/=` → `-_` rewrites of `b64urlEncode` (padding stripped). -/
def b64urlEncode : List Nat → String
  | [] => ""
  | [a] => String.mk [b64c (a / 4 % 64), b64c (a % 4 * 16)]
  | [a, b] => String.mk [b64c (a / 4 % 64), b64c (a % 4 * 16 + b / 16 % 16), b64c (b % 16 * 4)]
  | a :: b :: c :: rest =>
      String.mk [b64c (a / 4 % 64), b64c (a % 4 * 16 + b / 16 % 16),
                 b64c (b % 16 * 4 + c / 64 % 4), b64c (c % 64)] ++ b64urlEncode rest

/-- 6-bit value of a base64url character (`-`/`_` already map directly;
`b64urlDecode` first rewrites `-_` to `+/`, which is the same mapping). -/
def b64v (ch : Char) : Option Nat :=
  (B64URL_ALPHABET.indexOf? ch).map id

/-- Reassemble bytes from a list of 6-bit values. -/
def b64Decode6 : List Nat → List Nat
  | a :: b :: c :: d :: rest =>
      (a * 4 + b / 16) :: (b % 16 * 16 + c / 4) :: (c % 4 * 64 + d) :: b64Decode6 rest
  | [a, b] => [a * 4 + b / 16]
  | [a, b, c] => [a * 4 + b / 16, b % 16 * 16 + c / 4]
  | _ => []

/-- base64url-decode a string to bytes.  Matches `b64urlDecode`
(normalisation to the standard alphabet, padding, `Buffer.from(..,'base64')`,
which skips padding and characters outside the alphabet). -/
def b64urlDecode (s : String) : List Nat :=
  b64Decode6 (s.toList.filterMap b64v)

/-! ## URL model -/

/-- A parsed URL: origin, path, and the ordered search parameters.
`new URL(string)` parsing is a platform black box; the connector URL from
the environment is therefore carried around already parsed. -/
structure Url where
  origin : String
  pathname : String
  searchParams : List (String × String)
deriving DecidableEq, Repr

/-- `URLSearchParams.set`: replace the first occurrence in place, drop any
later duplicates, append when absent. -/
def setParams : List (String × String) → String → String → List (String × String)
  | [], k, v => [(k, v)]
  | (k', v') :: rest, k, v =>
      if k' = k then (k, v) :: rest.filter (fun p => p.1 != k)
      else (k', v') :: setParams rest k v

/-- `url.searchParams.set(k, v)`. -/
def Url.setParam (u : Url) (k v : String) : Url :=
  { u with searchParams := setParams u.searchParams k v }

/-- `url.searchParams.get(k)` (first occurrence, `null` when absent). -/
def Url.getParam (u : Url) (k : String) : Option String :=
  u.searchParams.lookup k

/-- `pathname.replace(/\/$/, '')`: strip one trailing slash. -/
def stripTrailingSlash (s : String) : String :=
  if strEndsWith s "/" then strDropRight s 1 else s

/-! ## CLI argument helpers (lib/utils.mjs) -/

/-- File-system oracle used by `getArg`'s `@filename` syntax
(`fs.readFileSync`, which either yields the file text or throws). -/
structure FileSys where
  readFile : String → Except String String

/-- `getArg(args, flag)`: value following the first occurrence of `flag`,
with `@filename` indirection (file contents trimmed; a read failure throws).
`null` (here `none`) when the flag is absent or is the last token. -/
def getArg (fsys : FileSys) (args : List String) (flag : String) :
    Except String (Option String) :=
  match args.indexOf? flag with
  | none => .ok none
  | some i =>
      if h : i + 1 < args.length then
        let val := args.get ⟨i + 1, h⟩
        if strStartsWith val "@" then
          match fsys.readFile (strDrop val 1) with
          | .ok contents => .ok (some (strTrim contents))
          | .error msg => .error ("Failed to read file " ++ strDrop val 1 ++ ": " ++ msg)
        else .ok (some val)
      else .ok none

/-- `getArgs(args, flag)`: every value following an occurrence of `flag`
(no `@` indirection, overlapping occurrences included). -/
def getArgs : List String → String → List String
  | [], _ => []
  | a :: rest, flag =>
      if a = flag then
        match rest with
        | [] => []
        | v :: _ => v :: getArgs rest flag
      else getArgs rest flag

/-- `hasFlag(args, flag)`. -/
def hasFlag (args : List String) (flag : String) : Bool :=
  args.contains flag

/-! ## Chain normalisation and network resolution (lib/utils.mjs) -/

/-- `normalizeChain`: lower-case, empty becomes `polygon`, `matic` aliases
`polygon`. -/
def normalizeChain (raw : String) : String :=
  let c := lowerStr raw
  if c = "" then "polygon"
  else if c = "matic" then "polygon"
  else c

/-- Accumulate further leading digits (`parseInt` stops at the first
non-digit). -/
def parseDigitsGo : List Char → Nat → Nat
  | [], acc => acc
  | c :: rest, acc =>
      if c.isDigit then parseDigitsGo rest (acc * 10 + (c.toNat - 48)) else acc

/-- Leading decimal digits of a character list; `none` when the first
character is not a digit. -/
def parseDigits : List Char → Option Nat
  | [] => none
  | c :: rest =>
      if c.isDigit then some (parseDigitsGo rest (c.toNat - 48)) else none

/-- JavaScript `parseInt(s)` restricted to decimal input: skip leading
whitespace, optional sign, leading digits; `NaN` (`none`) otherwise.
(The hexadecimal `0x` form never arises from the chain tables.) -/
def parseIntJs (s : String) : Option Int :=
  match s.toList.dropWhile (·.isWhitespace) with
  | '-' :: rest => (parseDigits rest).map (fun n => -(n : Int))
  | '+' :: rest => (parseDigits rest).map (fun n => (n : Int))
  | l => (parseDigits l).map (fun n => (n : Int))

/-- An entry of the `@0xsequence/network` table (external collaborator):
only the fields the modelled code reads. -/
structure Network where
  chainId : Int
  name : String
deriving DecidableEq, Repr

/-- First network whose name matches case-insensitively. -/
def findNetworkByName (networks : List (Int × Network)) (lowerName : String) :
    Option Network :=
  (networks.find? (fun p => lowerStr p.2.name = lowerName)).map (·.2)

/-- `resolveNetwork`: try the argument as a chain id, then as a chain name,
else throw `Unknown chain`. -/
def resolveNetwork (networks : List (Int × Network)) (chainOrId : String) :
    Except String Network :=
  let byId :=
    match parseIntJs chainOrId with
    | some cid => networks.lookup cid
    | none => none
  match byId with
  | some n => .ok n
  | none =>
      match findNetworkByName networks (lowerStr chainOrId) with
      | some n => .ok n
      | none => .error ("Unknown chain: " ++ chainOrId)

/-! ## Persistent store (lib/storage.mjs — not part of the provided sources) -/

/-- A pending `SessionRequest` record exactly as `walletCreate` persists it. -/
structure WalletRequest where
  rid : String
  walletName : String
  chain : String
  createdAt : DateStr
  expiresAt : DateStr
  publicKeyB64u : String
  privateKeyB64u : String
  projectAccessKey : Option String
deriving DecidableEq, Repr

/-- The `WalletSession` record exactly as `decryptAndSaveSession` persists it.
The `explicitSession`, `implicitMeta`, `implicitAttestation` and
`implicitIdentitySig` fields hold the `JSON.stringify` renderings produced
by the codec oracles. -/
structure WalletSessionRec where
  walletAddress : String
  chainId : Int
  chain : String
  projectAccessKey : Option String
  explicitSession : String
  sessionPk : String
  implicitPk : String
  implicitMeta : String
  implicitAttestation : String
  implicitIdentitySig : String
  createdAt : DateStr
deriving DecidableEq, Repr

/-- Replace the binding of `k` (first occurrence, duplicates dropped) or
append it: whole-document replacement of one record. -/
def setAssoc {α : Type} : List (String × α) → String → α → List (String × α)
  | [], k, v => [(k, v)]
  | (k', v') :: rest, k, v =>
      if k' = k then (k, v) :: rest.filter (fun p => p.1 != k)
      else (k', v') :: setAssoc rest k v

/-- Modelled from the spec: the on-disk store of `lib/storage.mjs`, which is
not among the provided sources.  §4.5: records are keyed by name/id, writes
are whole-document replacements, reads return the record or not-found. -/
structure Store where
  requests : List (String × WalletRequest)
  sessions : List (String × WalletSessionRec)
deriving DecidableEq, Repr

/-- Modelled from the spec: `saveWalletRequest` — whole-document replacement
of the request record keyed by `rid` (§4.5 `save(kind, name, record)`). -/
def saveWalletRequest (store : Store) (rid : String) (req : WalletRequest) : Store :=
  { store with requests := setAssoc store.requests rid req }

/-- Modelled from the spec: `loadWalletRequest` — record or not-found
(§4.5 `load(kind, name)`). -/
def loadWalletRequest (store : Store) (rid : String) : Option WalletRequest :=
  store.requests.lookup rid

/-- Modelled from the spec: `saveWalletSession` — whole-document replacement
keyed by wallet name; re-linking the same name overwrites (§3 WalletSession). -/
def saveWalletSession (store : Store) (name : String) (rec : WalletSessionRec) : Store :=
  { store with sessions := setAssoc store.sessions name rec }

/-- Modelled from the spec: `loadWalletSession` — record or not-found. -/
def loadWalletSession (store : Store) (name : String) : Option WalletSessionRec :=
  store.sessions.lookup name

/-! ## Permission builder (wallet.mjs `applySessionPermissionParams`) -/

/-- ERC-8004 contracts, always whitelisted in sessions. -/
def ERC8004_CONTRACTS : List String :=
  ["0x8004A169FB4a3325136EB29fA0ceB6D2e539a432",
   "0x8004BAa17C55a88189AE136b182e5fdA19dE9b63"]

/-- `[...new Set(l)]`: deduplicate keeping first occurrences. -/
def dedupGo (seen : List String) : List String → List String
  | [] => []
  | a :: rest =>
      if a ∈ seen then dedupGo seen rest else a :: dedupGo (a :: seen) rest

/-- Order-preserving deduplication. -/
def dedupKeepFirst (l : List String) : List String := dedupGo [] l

/-- The open-ended-limits half of `applySessionPermissionParams`: the
native/USDC/USDT ceilings (`--usdc-limit` defaults to `50`), the repeatable
`--token-limit` pairs, and the contract whitelist with the ERC-8004
contracts always unioned in. -/
def applySessionPermissionLimits (fsys : FileSys) (url1 : Url) (args : List String) :
    Except String Url :=
  match getArg fsys args "--native-limit" with
  | .error e => .error e
  | .ok nativeLimitA =>
  match (if jsTruthyStr nativeLimitA then .ok nativeLimitA
         else getArg fsys args "--pol-limit" : Except String (Option String)) with
  | .error e => .error e
  | .ok nativeLimit =>
  match getArg fsys args "--usdc-limit" with
  | .error e => .error e
  | .ok usdcLimitA =>
  match getArg fsys args "--usdt-limit" with
  | .error e => .error e
  | .ok usdtLimit =>
    let usdcLimit := jsOr usdcLimitA "50"
    let url2 := if jsTruthyStr nativeLimit then
        url1.setParam "nativeLimit" (nativeLimit.getD "") else url1
    let url3 := url2.setParam "usdcLimit" usdcLimit
    let url4 := if jsTruthyStr usdtLimit then
        url3.setParam "usdtLimit" (usdtLimit.getD "") else url3
    let tokenLimits := ((getArgs args "--token-limit").map strTrim).filter (fun s => s ≠ "")
    let url5 := if tokenLimits ≠ [] then
        url4.setParam "tokenLimits" (strIntercalate "," tokenLimits) else url4
    let userContracts := ((getArgs args "--contract").map strTrim).filter (fun s => s ≠ "")
    let allContracts := dedupKeepFirst (ERC8004_CONTRACTS ++ userContracts)
    .ok (url5.setParam "contracts" (strIntercalate "," allContracts))

/-- `applySessionPermissionParams(url, args)`: the one-off ERC-20 grant
(must supply both `--usdc-to` and `--usdc-amount` or neither), then the
open-ended limits. -/
def applySessionPermissionParams (fsys : FileSys) (url : Url) (args : List String) :
    Except String Url :=
  match getArg fsys args "--usdc-to" with
  | .error e => .error e
  | .ok usdcTo =>
  match getArg fsys args "--usdc-amount" with
  | .error e => .error e
  | .ok usdcAmount =>
  if jsTruthyStr usdcTo || jsTruthyStr usdcAmount then
    if ¬ jsTruthyStr usdcTo ∨ ¬ jsTruthyStr usdcAmount then
      .error "Must provide both --usdc-to and --usdc-amount"
    else
      applySessionPermissionLimits fsys
        (((url.setParam "erc20" "usdc").setParam
           "erc20To" (usdcTo.getD "")).setParam
           "erc20Amount" (usdcAmount.getD "")) args
  else applySessionPermissionLimits fsys url args

/-! ## Request creation (wallet.mjs `walletCreate`, `walletCreateAndWait`) -/

/-- A NaCl box keypair (`nacl.box.keyPair()`), raw bytes. -/
structure Keypair where
  publicKey : List Nat
  secretKey : List Nat
deriving DecidableEq, Repr

/-- Environment of the create commands: the connector URL (already parsed —
`new URL` is a platform black box) and the ambient project access key. -/
structure CreateEnv where
  connectorUrl : Option Url
  projectAccessKeyEnv : Option String
deriving DecidableEq, Repr

/-- `http://localhost:4444`, the connector-URL default. -/
def defaultConnectorUrl : Url :=
  { origin := "http://localhost:4444", pathname := "/", searchParams := [] }

/-- Successful output of `walletCreate`: the printed JSON's interesting
fields. -/
structure CreateOk where
  url : Url
  rid : String
  walletName : String
  chain : String
  expiresAt : DateStr
deriving DecidableEq, Repr

/-- Build the connector `/link` URL: path rewrite, then `rid`, `wallet`,
`pub`, `chain`, the callback URL when in callback-server mode, and the
access key when truthy — in source order. -/
def buildConnectorLinkUrl (base : Url) (rid name pub chain : String)
    (callbackUrl : Option String) (projectAccessKey : Option String) : Url :=
  let url := { base with pathname := stripTrailingSlash base.pathname ++ "/link" }
  let url := url.setParam "rid" rid
  let url := url.setParam "wallet" name
  let url := url.setParam "pub" pub
  let url := url.setParam "chain" chain
  let url := match callbackUrl with
    | some cb => url.setParam "callbackUrl" cb
    | none => url
  if jsTruthyStr projectAccessKey then url.setParam "accessKey" (projectAccessKey.getD "")
  else url

/-- `walletCreate()`: normalise the chain, generate the keypair (`rid` and
`kp` are the random inputs), persist the request, build the approval URL and
apply the permission parameters.  The store component of the result is the
store as left on disk — note that the request record is persisted before
`applySessionPermissionParams` runs, so it survives a usage error. -/
def walletCreate (env : CreateEnv) (fsys : FileSys) (store : Store)
    (args : List String) (now : Int) (rid : String) (kp : Keypair) :
    Store × Except String CreateOk :=
  match getArg fsys args "--name" with
  | .error e => (store, .error e)
  | .ok nameA =>
  match getArg fsys args "--chain" with
  | .error e => (store, .error e)
  | .ok chainA =>
  match getArg fsys args "--access-key" with
  | .error e => (store, .error e)
  | .ok akA =>
    let name := jsOr nameA "main"
    let chain := normalizeChain (jsOr chainA "polygon")
    let connectorUrl := env.connectorUrl.getD defaultConnectorUrl
    let pub := b64urlEncode kp.publicKey
    let priv := b64urlEncode kp.secretKey
    let projectAccessKey := jsOrOpt akA env.projectAccessKeyEnv
    let store1 := saveWalletRequest store rid
      { rid := rid, walletName := name, chain := chain,
        createdAt := toISOString now,
        expiresAt := toISOString (now + 2 * 60 * 60 * 1000),
        publicKeyB64u := pub, privateKeyB64u := priv,
        projectAccessKey := jsOrOpt projectAccessKey none }
    let url := buildConnectorLinkUrl connectorUrl rid name pub chain none projectAccessKey
    match applySessionPermissionParams fsys url args with
    | .error e => (store1, .error e)
    | .ok url2 =>
        (store1, .ok { url := url2, rid := rid, walletName := name, chain := chain,
                       expiresAt := toISOString (now + 2 * 60 * 60 * 1000) })

/-- Successful output of the creation half of `walletCreateAndWait`. -/
structure WaitPrepareOk where
  url : Url
  rid : String
  walletName : String
  chain : String
  expiresAt : DateStr
  callbackPort : Nat
  timeoutSec : Option Int
deriving DecidableEq, Repr

/-- The creation half of `walletCreateAndWait()`: identical to
`walletCreate` except that the ephemeral callback server's
`http://localhost:<port>/callback` is embedded in the URL and `--timeout`
is read (default 300).  `port` is the OS-assigned listener port. -/
def walletCreateAndWaitPrepare (env : CreateEnv) (fsys : FileSys) (store : Store)
    (args : List String) (now : Int) (rid : String) (kp : Keypair) (port : Nat) :
    Store × Except String WaitPrepareOk :=
  match getArg fsys args "--name" with
  | .error e => (store, .error e)
  | .ok nameA =>
  match getArg fsys args "--chain" with
  | .error e => (store, .error e)
  | .ok chainA =>
  match getArg fsys args "--timeout" with
  | .error e => (store, .error e)
  | .ok toA =>
  match getArg fsys args "--access-key" with
  | .error e => (store, .error e)
  | .ok akA =>
    let name := jsOr nameA "main"
    let chain := normalizeChain (jsOr chainA "polygon")
    let timeoutSec := parseIntJs (jsOr toA "300")
    let connectorUrl := env.connectorUrl.getD defaultConnectorUrl
    let pub := b64urlEncode kp.publicKey
    let priv := b64urlEncode kp.secretKey
    let projectAccessKey := jsOrOpt akA env.projectAccessKeyEnv
    let store1 := saveWalletRequest store rid
      { rid := rid, walletName := name, chain := chain,
        createdAt := toISOString now,
        expiresAt := toISOString (now + 2 * 60 * 60 * 1000),
        publicKeyB64u := pub, privateKeyB64u := priv,
        projectAccessKey := jsOrOpt projectAccessKey none }
    let callbackUrl := "http://localhost:" ++ toString port ++ "/callback"
    let url := buildConnectorLinkUrl connectorUrl rid name pub chain
      (some callbackUrl) projectAccessKey
    match applySessionPermissionParams fsys url args with
    | .error e => (store1, .error e)
    | .ok url2 =>
        (store1, .ok { url := url2, rid := rid, walletName := name, chain := chain,
                       expiresAt := toISOString (now + 2 * 60 * 60 * 1000),
                       callbackPort := port, timeoutSec := timeoutSec })

/-! ## Session envelope and ingestion (wallet.mjs `decryptAndSaveSession`) -/

/-- `explicitSession.config` — only `deadline` is read by the modelled code. -/
structure SessionConfig where
  deadline : Option JsNumber
deriving DecidableEq, Repr

/-- The explicit-session object of the decrypted payload. -/
structure ExplicitSession where
  pk : Option String
  config : Option SessionConfig
  loginMethod : Option String
  userEmail : Option String
deriving DecidableEq, Repr

/-- The implicit-session object of the decrypted payload.  `attestation`
and `identitySignature` are opaque JSON values represented by their text;
a JavaScript object is always truthy, an empty string is not. -/
structure ImplicitSession where
  pk : Option String
  attestation : Option String
  identitySignature : Option String
  guard : Option String
  loginMethod : Option String
  userEmail : Option String
deriving DecidableEq, Repr

/-- The decrypted session envelope (`payload`). -/
structure Payload where
  walletAddress : Option String
  chainId : Option JsNumber
  explicitSession : Option ExplicitSession
  implicit : Option ImplicitSession
deriving DecidableEq, Repr

/-- The distinct failures of ingestion, one per `throw` site of
`decryptAndSaveSession`. -/
inductive IngestErr
  | requestNotFound (rid : String)
  | expiredRequest (rid : String) (expiresAt : DateStr)
  | decryptFailed
  | payloadParseFailed
  | missingWalletAddress
  | missingChainId
  | unknownChain (chain : String)
  | chainMismatch (chain : String) (netChainId : Int) (payloadChainId : JsNumber)
  | missingExplicitSession
  | missingExplicitPk
  | missingImplicit
deriving DecidableEq, Repr

/-- Render a `DateStr` for error text (the ISO text of a modelled timestamp
is abbreviated). -/
def DateStr.text : DateStr → String
  | .iso ms => "iso:" ++ toString ms
  | .invalid s => s

/-- The `error.message` string of each ingestion failure, as thrown by the
source. -/
def IngestErr.message : IngestErr → String
  | .requestNotFound rid => "Request not found: " ++ rid
  | .expiredRequest rid expiresAt =>
      "Request rid=" ++ rid ++ " is expired (expiresAt=" ++ expiresAt.text ++
      "). Create a new request."
  | .decryptFailed => "Failed to decrypt ciphertext"
  | .payloadParseFailed => "Unexpected token in JSON"
  | .missingWalletAddress => "Missing walletAddress in payload"
  | .missingChainId => "Missing chainId in payload"
  | .unknownChain chain => "Unknown chain: " ++ chain
  | .chainMismatch chain netChainId payloadChainId =>
      "Chain mismatch: request chain=" ++ chain ++ " (chainId=" ++ toString netChainId ++
      ") but payload chainId=" ++ toString (repr payloadChainId)
  | .missingExplicitSession => "Missing explicitSession in payload"
  | .missingExplicitPk => "Missing explicitSession.pk in payload"
  | .missingImplicit => "Missing implicit session in payload"

/-- External collaborators of ingestion: the network table, NaCl sealed-box
opening (ciphertext bytes, public key, secret key → plaintext bytes or
failure), the JSON payload parser (the revivers-then-plain `JSON.parse`
cascade; `none` when both throw), and the `JSON.stringify` renderings with
the dapp-client replacers. -/
structure IngestEnv where
  networks : List (Int × Network)
  sealedboxOpen : List Nat → List Nat → List Nat → Option (List Nat)
  parsePayload : List Nat → Option Payload
  stringifyExplicit : ExplicitSession → String
  stringifyMeta : Option String → Option String → Option String → String
  stringifyBlob : String → String

/-- The value returned by a successful `decryptAndSaveSession`. -/
structure IngestOk where
  walletAddress : String
  chainId : Int
  chain : String
deriving DecidableEq, Repr

/-- The check-and-build phase of `decryptAndSaveSession`, in exact source
order: load request, expiry, sealed-box decryption, payload parse, envelope
validation; on success the `WalletSession` record to persist together with
the returned value.  The store is written by `decryptAndSaveSession` below,
which performs the save exactly where the source does — as the final
operation after every check. -/
def ingestChecks (env : IngestEnv) (store : Store) (ciphertext rid : String)
    (now : Int) : Except IngestErr (WalletSessionRec × IngestOk) :=
  match loadWalletRequest store rid with
  | none => .error (.requestNotFound rid)
  | some request =>
    let chain := normalizeChain (jsOr (some request.chain) "polygon")
    let exp := dateParse request.expiresAt
    if exp.isFinite ∧ now > exp.toIntD then
      .error (.expiredRequest rid request.expiresAt)
    else
      let publicKey := b64urlDecode request.publicKeyB64u
      let privateKey := b64urlDecode request.privateKeyB64u
      let ciphertextBuf := b64urlDecode ciphertext
      match env.sealedboxOpen ciphertextBuf publicKey privateKey with
      | none => .error .decryptFailed
      | some decrypted =>
      match env.parsePayload decrypted with
      | none => .error .payloadParseFailed
      | some payload =>
        if ¬ jsTruthyStr payload.walletAddress then .error .missingWalletAddress else
        match payload.chainId with
        | none => .error .missingChainId
        | some chainIdN =>
        if ¬ chainIdN.truthy then .error .missingChainId else
        match resolveNetwork env.networks chain with
        | .error _ => .error (.unknownChain chain)
        | .ok net =>
        if chainIdN ≠ .fin net.chainId then
          .error (.chainMismatch chain net.chainId chainIdN)
        else
        match payload.explicitSession with
        | none => .error .missingExplicitSession
        | some explicitSession =>
        if ¬ jsTruthyStr explicitSession.pk then .error .missingExplicitPk else
        match payload.implicit with
        | none => .error .missingImplicit
        | some implicitS =>
        if ¬ (jsTruthyStr implicitS.pk ∧ jsTruthyStr implicitS.attestation ∧
              jsTruthyStr implicitS.identitySignature) then
          .error .missingImplicit
        else
          let walletAddress := payload.walletAddress.getD ""
          let sessionRec : WalletSessionRec :=
            { walletAddress := walletAddress,
              chainId := net.chainId,
              chain := chain,
              projectAccessKey := jsOrOpt request.projectAccessKey none,
              explicitSession := env.stringifyExplicit explicitSession,
              sessionPk := explicitSession.pk.getD "",
              implicitPk := implicitS.pk.getD "",
              implicitMeta := env.stringifyMeta implicitS.guard implicitS.loginMethod
                implicitS.userEmail,
              implicitAttestation := env.stringifyBlob (implicitS.attestation.getD ""),
              implicitIdentitySig := env.stringifyBlob (implicitS.identitySignature.getD ""),
              createdAt := toISOString now }
          .ok (sessionRec, { walletAddress := walletAddress, chainId := net.chainId,
                             chain := chain })

/-- `decryptAndSaveSession(name, ciphertext, rid)`: run the checks; a throw
leaves the store untouched, success persists the `WalletSession` under
`name` (the one and only store write of the source function). -/
def decryptAndSaveSession (env : IngestEnv) (store : Store) (name ciphertext rid : String)
    (now : Int) : Store × Except IngestErr IngestOk :=
  match ingestChecks env store ciphertext rid now with
  | .error e => (store, .error e)
  | .ok (sessionRec, res) => (saveWalletSession store name sessionRec, .ok res)

/-- `NaN`-aware rendering of an optional parsed integer. -/
def jsIntToString : Option Int → String
  | some n => toString n
  | none => "NaN"

/-- `walletCreateAndWait()` end to end: create the request and the approval
URL, wait for the callback (`callbackResult` is the ciphertext the race
produced, `none` for a timeout), then decrypt and save with the rid and the
keypair fixed at creation time. -/
def walletCreateAndWaitRun (cenv : CreateEnv) (fsys : FileSys) (ienv : IngestEnv)
    (store : Store) (args : List String) (now : Int) (rid : String) (kp : Keypair)
    (port : Nat) (callbackResult : Option String) (now2 : Int) :
    Store × Except String IngestOk :=
  match walletCreateAndWaitPrepare cenv fsys store args now rid kp port with
  | (store1, .error e) => (store1, .error e)
  | (store1, .ok out) =>
    match callbackResult with
    | none =>
        (store1, .error ("Timed out waiting for callback (" ++
          jsIntToString out.timeoutSec ++ "s)"))
    | some ciphertext =>
      match decryptAndSaveSession ienv store1 out.walletName ciphertext rid now2 with
      | (store2, .error e) => (store2, .error e.message)
      | (store2, .ok r) => (store2, .ok r)

/-! ## Callback server HTTP handler (wallet.mjs, inside `walletCreateAndWait`) -/

/-- A JSON field value: a string, or any non-string value. -/
inductive JField
  | str (s : String)
  | other
deriving DecidableEq, Repr

/-- The request body together with the parse the handler applies to it.
The source dispatches on the `content-type` header: form-encoded bodies go
through `URLSearchParams` (never throws, all values strings), anything else
through `JSON.parse` (`none` = throws). -/
inductive ReqBody
  | form (fields : List (String × String))
  | json (parsed : Option (List (String × JField)))
deriving DecidableEq, Repr

/-- An incoming HTTP request: method, `req.url`, body, and the byte size of
the raw body (the chunk counter of the source). -/
structure HttpReq where
  method : String
  url : String
  body : ReqBody
  bodySize : Nat
deriving DecidableEq, Repr

/-- What the handler did: the response status, and the ciphertext it
resolved the pending wait with (if any). -/
structure HandlerResult where
  status : Nat
  resolvedCiphertext : Option String
deriving DecidableEq, Repr

/-- Property lookup on a parsed JavaScript object: with duplicate keys the
last occurrence wins (both for `JSON.parse` and `Object.fromEntries`). -/
def lookupLast (fields : List (String × JField)) (k : String) : Option JField :=
  fields.reverse.lookup k

/-- The 64 KiB body ceiling (`MAX_BODY`). -/
def MAX_BODY : Nat := 65536

/-- The parse the handler applies to the body (form-encoded via
`URLSearchParams`, otherwise `JSON.parse`). -/
def parseCallbackBody : ReqBody → Option (List (String × JField))
  | .form fields => some (fields.map (fun p => (p.1, JField.str p.2)))
  | .json parsed => parsed

/-- The callback server's request handler: CORS preflight gets 204; anything
that is not a `POST` whose URL *starts with* `/callback` gets 404; an
oversized body is aborted with 413; a body that fails to parse gets 400; a
missing or non-string or empty `ciphertext` field gets 400; otherwise the
success page is served with 200 and the wait is resolved with the
ciphertext.  The `rid` field of the body is never inspected. -/
def callbackHandler (req : HttpReq) : HandlerResult :=
  if req.method = "OPTIONS" then { status := 204, resolvedCiphertext := none }
  else if req.method ≠ "POST" ∨ ¬ strStartsWith req.url "/callback" then
    { status := 404, resolvedCiphertext := none }
  else if req.bodySize > MAX_BODY then { status := 413, resolvedCiphertext := none }
  else
    match parseCallbackBody req.body with
    | none => { status := 400, resolvedCiphertext := none }
    | some data =>
      match lookupLast data "ciphertext" with
      | some (.str s) =>
          if s = "" then { status := 400, resolvedCiphertext := none }
          else { status := 200, resolvedCiphertext := some s }
      | _ => { status := 400, resolvedCiphertext := none }

/-! ## Transaction dispatcher (lib/dapp-client.mjs) -/

/-- `implicitMeta` after `JSON.parse`. -/
structure MetaObj where
  guard : Option String
  loginMethod : Option String
  userEmail : Option String
deriving DecidableEq, Repr

/-- A fee token as returned by the wallet-client's `getFeeTokens`. -/
structure FeeToken where
  contractAddress : Option String
  symbol : Option String
  decimals : Option Int
deriving DecidableEq, Repr

/-- A fee option: the asset, recipient and amount the relayer accepts.
`toAddr` is the source's `to` field (`to` is reserved in Lean). -/
structure FeeOption where
  token : Option FeeToken
  toAddr : String
  value : String
  gasLimit : Int
deriving DecidableEq, Repr

/-- The `getFeeTokens` response. -/
structure FeeTokensRes where
  paymentAddress : Option String
  tokens : Option (List FeeToken)
deriving DecidableEq, Repr

/-- Environment of the dispatcher: ambient configuration, the JSON codecs,
and the wallet-client / indexer collaborators as oracles.  `passphrase`
models `getPassphrase()` (environment variable or the encryption-key file;
a missing key file throws). -/
structure DispatchEnv where
  passphrase : Except String String
  envWalletUrl : Option String
  envOrigin : Option String
  envProjectAccessKey : Option String
  envKeymachineUrl : Option String
  envNodesUrl : Option String
  envRelayerUrl : Option String
  envIndexerKey : Option String
  parseExplicitSession : String → Except String (Option ExplicitSession)
  parseMeta : String → Except String MetaObj
  parseBlob : String → Except String Unit
  clientInit : Except String Bool
  getFeeOptions : Int → List String → Except String (List FeeOption)
  getFeeTokens : Int → Except String FeeTokensRes
  indexerBalances : String → Except String (List String)
  sendTransaction : Int → List String → Option FeeOption → Except String String

/-- The values `syncStateAndGetStorage` returns to `runDappClientTx`
(the staging-storage handles carry no further modelled state). -/
structure SyncOk where
  walletAddress : String
  walletUrl : String
  origin : String
  projectAccessKey : String
  keymachineUrl : String
  nodesUrl : String
  relayerUrl : String
deriving DecidableEq, Repr

/-- The tail of `syncStateAndGetStorage` after the deadline check:
passphrase, configuration checks, and the JSON parses of the stored
implicit material.  The writes to the ephemeral `.state.enc` staging files
(`StateManager.update`, `saveExplicitSession`, `saveImplicitSession`,
pending-redirect clears) touch no modelled state and are represented only
by the parses that can throw on their inputs. -/
def syncStateTail (env : DispatchEnv) (session : WalletSessionRec) :
    Except String SyncOk :=
  match env.passphrase with
  | .error e => .error e
  | .ok _ =>
    let walletUrl := jsOr env.envWalletUrl "https://acme-wallet.ecosystem-demo.xyz"
    let origin := env.envOrigin
    let projectAccessKey := jsOrOpt session.projectAccessKey env.envProjectAccessKey
    if ¬ jsTruthyStr origin then
      .error "Missing SEQUENCE_DAPP_ORIGIN environment variable"
    else if ¬ jsTruthyStr projectAccessKey then
      .error "Missing SEQUENCE_PROJECT_ACCESS_KEY (not in wallet session or environment)"
    else
      let keymachineUrl := jsOr env.envKeymachineUrl "https://keymachine.sequence.app"
      let nodesUrl := jsOr env.envNodesUrl "https://nodes.sequence.app/{network}"
      let relayerUrl := jsOr env.envRelayerUrl "https://{network}-relayer.sequence.app"
      let metaRes : Except String MetaObj :=
        if session.implicitMeta ≠ "" then env.parseMeta session.implicitMeta
        else .ok { guard := none, loginMethod := none, userEmail := none }
      match metaRes with
      | .error e => .error e
      | .ok _ =>
        let blobRes : Except String Unit :=
          if session.implicitPk ≠ "" ∧ session.implicitAttestation ≠ "" ∧
             session.implicitIdentitySig ≠ "" then
            match env.parseBlob session.implicitAttestation with
            | .error e => .error e
            | .ok _ => env.parseBlob session.implicitIdentitySig
          else .ok ()
        match blobRes with
        | .error e => .error e
        | .ok _ =>
          .ok { walletAddress := session.walletAddress, walletUrl := walletUrl,
                origin := origin.getD "", projectAccessKey := projectAccessKey.getD "",
                keymachineUrl := keymachineUrl, nodesUrl := nodesUrl,
                relayerUrl := relayerUrl }

/-- `syncStateAndGetStorage({walletName, chainId})`: load the wallet
session, require the stored explicit session and its `pk`, revalidate the
explicit session's deadline against the current time (seconds), then run
the configuration tail.  `now` is `Date.now()` in milliseconds. -/
def syncStateAndGetStorage (env : DispatchEnv) (store : Store) (walletName : String)
    (now : Int) : Except String SyncOk :=
  match loadWalletSession store walletName with
  | none => .error ("Wallet not found: " ++ walletName)
  | some session =>
    if session.explicitSession = "" then
      .error "Missing explicit session. Re-run wallet start-session."
    else
      match env.parseExplicitSession session.explicitSession with
      | .error e => .error e
      | .ok explicitSessionQ =>
        if ¬ jsTruthyStr (explicitSessionQ.bind (·.pk)) then
          .error "Stored explicit session is missing pk; re-link wallet"
        else
          match explicitSessionQ.bind (fun es => es.config.bind (·.deadline)) with
          | some d =>
            if d.truthy then
              if d.isFinite ∧ d.toIntD ≤ Int.fdiv now 1000 then
                .error ("Explicit session has expired (deadline " ++
                  toString d.toIntD ++ "). Re-link wallet to mint a fresh session.")
              else syncStateTail env session
            else syncStateTail env session
          | none => syncStateTail env session

/-- One outbound call of the dispatcher, for the call trace. -/
inductive ClientCall
  | initClient
  | feeOptionsCall
  | feeTokensCall
  | indexerCall
  | sendTxCall
deriving DecidableEq, Repr

/-- Result of `runDappClientTx`: the dry-run descriptor or the broadcast
receipt. -/
inductive TxOutcome
  | dryRun (walletAddress : String)
  | sent (walletAddress : String) (txHash : String) (feeOptionUsed : Option FeeOption)
deriving DecidableEq, Repr

/-- Native USDC on Polygon, the preferred fallback fee asset. -/
def USDC_POLYGON : String := "0x3c499c542cef5e3811e1192ce70d8cc03d5c3359"

/-- The symbol-matching fallback chain for an ERC-20 fee token: exact
native-USDC address, then `USDC` symbol, then any token with a contract
address. -/
def pickErc20Fallback (tokens : List FeeToken) : Option FeeToken :=
  match tokens.find? (fun t => (t.contractAddress.map lowerStr) = some USDC_POLYGON) with
  | some t => some t
  | none =>
    match tokens.find? (fun t => jsTruthyStr t.contractAddress ∧ t.symbol = some "USDC") with
    | some t => some t
    | none => tokens.find? (fun t => jsTruthyStr t.contractAddress)

/-- The `getFeeTokens` tier of fee resolution (no simulation): query the
fee-token list, cross-reference against indexer balances when an indexer
key is configured (the `session.projectAccessKey` fallback in this scope
is a `ReferenceError` swallowed by the surrounding catch, so without
`SEQUENCE_INDEXER_ACCESS_KEY` no indexer call happens), then the symbol
fallback, and build a flat 0.01-token fee option. -/
def feeTokensTier (env : DispatchEnv) (walletAddress : String) (chainId : Int) :
    List ClientCall × Option FeeOption :=
  match env.getFeeTokens chainId with
  | .error _ => ([.feeTokensCall], none)
  | .ok ft =>
    let paymentAddress := ft.paymentAddress
    let tokens := ft.tokens.getD []
    let (idxCalls, heldPick) :=
      if tokens ≠ [] then
        if jsTruthyStr env.envIndexerKey then
          match env.indexerBalances walletAddress with
          | .ok balances =>
            let heldAddresses := balances.map lowerStr
            ([ClientCall.indexerCall],
             tokens.find? (fun t => jsTruthyStr t.contractAddress ∧
               heldAddresses.contains (lowerStr (t.contractAddress.getD ""))))
          | .error _ => ([ClientCall.indexerCall], none)
        else ([], none)
      else ([], none)
    let erc20Token : Option FeeToken :=
      if tokens ≠ [] then
        match heldPick with
        | some t => some t
        | none => pickErc20Fallback tokens
      else none
    if jsTruthyStr paymentAddress ∧ erc20Token.isSome then
      let tok := erc20Token.getD { contractAddress := none, symbol := none, decimals := none }
      let decimals := tok.decimals.getD 6
      let feeValue : Int := if decimals ≥ 2 then (10 : Int) ^ (decimals - 2).toNat else 1
      ([ClientCall.feeTokensCall] ++ idxCalls,
       some { token := some tok, toAddr := paymentAddress.getD "",
              value := toString feeValue, gasLimit := 0 })
    else ([ClientCall.feeTokensCall] ++ idxCalls, none)

/-- `runDappClientTx({walletName, chainId, transactions, broadcast,
preferNativeFee})`: sync the session state (with the deadline revalidation),
initialise the wallet client, stop with the dry-run descriptor when
`broadcast` is false, otherwise resolve a fee option through the tiered
fallback and delegate to `sendTransaction`.  The first component is the
trace of outbound wallet-client/indexer calls in order. -/
def runDappClientTx (env : DispatchEnv) (store : Store) (walletName : String)
    (chainId : Int) (transactions : List String) (broadcast : Bool)
    (preferNativeFee : Bool) (now : Int) : List ClientCall × Except String TxOutcome :=
  match syncStateAndGetStorage env store walletName now with
  | .error e => ([], .error e)
  | .ok s =>
    match env.clientInit with
    | .error e => ([.initClient], .error e)
    | .ok isInit =>
      if ¬ isInit then ([.initClient], .error "Client not initialized")
      else if ¬ broadcast then ([.initClient], .ok (.dryRun s.walletAddress))
      else
        let (callsA, feeOptA) :=
          if preferNativeFee then
            match env.getFeeOptions chainId transactions with
            | .ok feeOptions =>
                ([ClientCall.feeOptionsCall],
                 match feeOptions.find? (fun o =>
                     ¬ jsTruthyStr (o.token.bind (·.contractAddress))) with
                 | some o => some o
                 | none => feeOptions.head?)
            | .error _ => ([ClientCall.feeOptionsCall], none)
          else ([], none)
        let (callsB, feeOptB) :=
          match feeOptA with
          | some o => ([], some o)
          | none => feeTokensTier env s.walletAddress chainId
        match feeOptB with
        | some feeOpt =>
          (match env.sendTransaction chainId transactions (some feeOpt) with
           | .error e =>
             ([ClientCall.initClient] ++ callsA ++ callsB ++ [ClientCall.sendTxCall], .error e)
           | .ok txHash =>
             ([ClientCall.initClient] ++ callsA ++ callsB ++ [ClientCall.sendTxCall],
              .ok (.sent s.walletAddress txHash (some feeOpt))))
        | none =>
          match env.getFeeOptions chainId transactions with
          | .error e =>
            ([ClientCall.initClient] ++ callsA ++ callsB ++ [ClientCall.feeOptionsCall],
             .error ("Unable to determine fee option: " ++ e))
          | .ok feeOptions =>
            match env.sendTransaction chainId transactions feeOptions.head? with
            | .error e =>
              ([ClientCall.initClient] ++ callsA ++ callsB ++
                 [ClientCall.feeOptionsCall, ClientCall.sendTxCall], .error e)
            | .ok txHash =>
              ([ClientCall.initClient] ++ callsA ++ callsB ++
                 [ClientCall.feeOptionsCall, ClientCall.sendTxCall],
               .ok (.sent s.walletAddress txHash feeOptions.head?))

/-! ## Concrete fixtures for the closed-instance theorems -/

/-- A three-entry model of the `@0xsequence/network` table. -/
def sampleNetworks : List (Int × Network) :=
  [(1, { chainId := 1, name := "Mainnet" }),
   (137, { chainId := 137, name := "Polygon" }),
   (80002, { chainId := 80002, name := "Amoy" })]

/-- A file system on which every read fails (no `@file` arguments in use). -/
def noFiles : FileSys := { readFile := fun _ => .error "ENOENT" }

/-- The empty store. -/
def emptyStore : Store := { requests := [], sessions := [] }

/-- Creation environment with no ambient configuration. -/
def sampleCreateEnv : CreateEnv := { connectorUrl := none, projectAccessKeyEnv := none }

/-- A tiny concrete keypair. -/
def sampleKeypair : Keypair := { publicKey := [1, 2, 3], secretKey := [4, 5, 6] }

/-- Same public key as `sampleKeypair`, different secret key. -/
def sampleKeypairAlt : Keypair := { publicKey := [1, 2, 3], secretKey := [7, 8, 9] }

/-- A fully valid explicit-session object. -/
def sampleExplicitSession : ExplicitSession :=
  { pk := some "0xsessionpk", config := some { deadline := some (.fin 9999999999) },
    loginMethod := none, userEmail := none }

/-- A fully valid implicit-session object. -/
def sampleImplicitSession : ImplicitSession :=
  { pk := some "0ximplicitpk", attestation := some "attestationJson",
    identitySignature := some "identitySigJson", guard := none,
    loginMethod := none, userEmail := none }

/-- A payload that passes every ingestion check against a `polygon` request. -/
def samplePayload : Payload :=
  { walletAddress := some "0xwallet", chainId := some (.fin 137),
    explicitSession := some sampleExplicitSession, implicit := some sampleImplicitSession }

/-- An ingestion environment whose decryption and parsing always succeed
with `samplePayload`. -/
def sampleIngestEnv : IngestEnv :=
  { networks := sampleNetworks,
    sealedboxOpen := fun _ _ _ => some [123],
    parsePayload := fun _ => some samplePayload,
    stringifyExplicit := fun _ => "explicitJson",
    stringifyMeta := fun _ _ _ => "metaJson",
    stringifyBlob := fun s => s }

/-- A pending request as `walletCreate` would persist it at `now = 1000`
with `sampleKeypair` (`AQID`/`BAUG` are the base64url encodings). -/
def sampleRequest : WalletRequest :=
  { rid := "RID1", walletName := "main", chain := "polygon",
    createdAt := .iso 1000, expiresAt := .iso 7201000,
    publicKeyB64u := "AQID", privateKeyB64u := "BAUG",
    projectAccessKey := none }

/-- A store holding only `sampleRequest`. -/
def storeWithRequest : Store := { requests := [("RID1", sampleRequest)], sessions := [] }

/-- A persisted wallet session with no implicit material; its explicit
session text is interpreted by the `parseExplicitSession` oracle. -/
def sampleSessionRec : WalletSessionRec :=
  { walletAddress := "0xwallet", chainId := 137, chain := "polygon",
    projectAccessKey := some "PAK",
    explicitSession := "explicitJson", sessionPk := "0xsessionpk",
    implicitPk := "", implicitMeta := "", implicitAttestation := "",
    implicitIdentitySig := "", createdAt := .iso 0 }

/-- A USDC fee token. -/
def sampleFeeToken : FeeToken :=
  { contractAddress := some "0xFEE", symbol := some "USDC", decimals := some 6 }

/-- A dispatcher environment in which every collaborator succeeds and the
stored explicit session parses with deadline `d`. -/
def sampleDispatchEnv (d : JsNumber) : DispatchEnv :=
  { passphrase := .ok "passphrase",
    envWalletUrl := none,
    envOrigin := some "https://origin.example",
    envProjectAccessKey := some "PAK",
    envKeymachineUrl := none, envNodesUrl := none, envRelayerUrl := none,
    envIndexerKey := none,
    parseExplicitSession := fun _ =>
      .ok (some { pk := some "0xsessionpk", config := some { deadline := some d },
                  loginMethod := none, userEmail := none }),
    parseMeta := fun _ => .ok { guard := none, loginMethod := none, userEmail := none },
    parseBlob := fun _ => .ok (),
    clientInit := .ok true,
    getFeeOptions := fun _ _ => .ok [],
    getFeeTokens := fun _ =>
      .ok { paymentAddress := some "0xpay", tokens := some [sampleFeeToken] },
    indexerBalances := fun _ => .ok [],
    sendTransaction := fun _ _ _ => .ok "0xhash" }

/-- A store holding only `sampleSessionRec` under name `main`. -/
def storeWithSessionRec : Store :=
  { requests := [], sessions := [("main", sampleSessionRec)] }

/-- The `CreateOk` value `walletCreate` produces from the fixtures
(`emptyStore`, no flags, `now = 1000`, `sampleKeypair`). -/
def sampleCreateOut : CreateOk :=
  { url := { origin := "http://localhost:4444", pathname := "/link",
             searchParams :=
               [("rid", "RID1"), ("wallet", "main"), ("pub", "AQID"),
                ("chain", "polygon"), ("usdcLimit", "50"),
                ("contracts",
                 "0x8004A169FB4a3325136EB29fA0ceB6D2e539a432,0x8004BAa17C55a88189AE136b182e5fdA19dE9b63")] },
    rid := "RID1", walletName := "main", chain := "polygon",
    expiresAt := .iso 7201000 }

/-- Truthiness of the optional numeric `chainId` (`!chainId || typeof
chainId !== 'number'` in the source rejects an absent, zero or `NaN`
chain id). -/
def jsTruthyNumOpt : Option JsNumber → Bool
  | none => false
  | some n => n.truthy

/-! # Theorems -/

/-! ### URL-parameter lemmas -/

theorem lookup_filter_ne (l : List (String × String)) (k k2 : String) (h : k2 ≠ k) :
    (l.filter (fun p => p.1 != k)).lookup k2 = l.lookup k2 := by
  induction l with
  | nil => simp
  | cons p rest ih =>
      obtain ⟨a, b⟩ := p
      by_cases ha : a = k
      · subst ha
        have hba : (k2 == a) = false := beq_eq_false_iff_ne.mpr h
        have hdrop : ((a, b).1 != a) = false := by simp
        simp only [List.filter, hdrop, List.lookup, hba, ih]
      · have hkeep : ((a, b).1 != k) = true := by simp [ha]
        simp only [List.filter, hkeep, List.lookup, ih]

theorem lookup_setParams_self (ps : List (String × String)) (k v : String) :
    (setParams ps k v).lookup k = some v := by
  induction ps with
  | nil => simp [setParams, List.lookup]
  | cons p rest ih =>
      obtain ⟨k', v'⟩ := p
      by_cases h : k' = k
      · subst h; simp [setParams, List.lookup]
      · have hbk : (k == k') = false := beq_eq_false_iff_ne.mpr (Ne.symm h)
        simp only [setParams, if_neg h, List.lookup, hbk, ih]

theorem lookup_setParams_ne (ps : List (String × String)) (k v k2 : String)
    (h : k2 ≠ k) : (setParams ps k v).lookup k2 = ps.lookup k2 := by
  induction ps with
  | nil =>
      have hbk : (k2 == k) = false := beq_eq_false_iff_ne.mpr h
      simp [setParams, List.lookup, hbk]
  | cons p rest ih =>
      obtain ⟨k', v'⟩ := p
      by_cases hk : k' = k
      · subst hk
        have hbk : (k2 == k') = false := beq_eq_false_iff_ne.mpr h
        simp only [setParams, if_pos rfl, List.lookup, hbk,
          lookup_filter_ne rest k' k2 h]
      · simp only [setParams, if_neg hk, List.lookup, ih]

theorem getParam_setParam_self (u : Url) (k v : String) :
    (u.setParam k v).getParam k = some v :=
  lookup_setParams_self u.searchParams k v

theorem getParam_setParam_ne (u : Url) (k v k2 : String) (h : k2 ≠ k) :
    (u.setParam k v).getParam k2 = u.getParam k2 :=
  lookup_setParams_ne u.searchParams k v k2 h

/-! ### Permission-builder lemmas -/

theorem applySessionPermissionLimits_preserves (fsys : FileSys) (url1 : Url)
    (args : List String) (k : String) (url' : Url)
    (h : applySessionPermissionLimits fsys url1 args = .ok url')
    (h4 : k ≠ "nativeLimit") (h5 : k ≠ "usdcLimit") (h6 : k ≠ "usdtLimit")
    (h7 : k ≠ "tokenLimits") (h8 : k ≠ "contracts") :
    url'.getParam k = url1.getParam k := by
  unfold applySessionPermissionLimits at h
  split at h
  next => simp at h
  next nativeLimitA hnlA =>
  split at h
  next => simp at h
  next nativeLimit hnl =>
  split at h
  next => simp at h
  next usdcLimitA husdcL =>
  split at h
  next => simp at h
  next usdtLimit husdtL =>
  simp only [Except.ok.injEq] at h
  subst h
  rw [getParam_setParam_ne _ _ _ _ h8]
  repeat
    first
    | rfl
    | rw [getParam_setParam_ne _ _ _ _ h7]
    | rw [getParam_setParam_ne _ _ _ _ h6]
    | rw [getParam_setParam_ne _ _ _ _ h5]
    | rw [getParam_setParam_ne _ _ _ _ h4]
    | split

theorem applySessionPermissionParams_preserves (fsys : FileSys) (url : Url)
    (args : List String) (k : String) (url' : Url)
    (h : applySessionPermissionParams fsys url args = .ok url')
    (h1 : k ≠ "erc20") (h2 : k ≠ "erc20To") (h3 : k ≠ "erc20Amount")
    (h4 : k ≠ "nativeLimit") (h5 : k ≠ "usdcLimit") (h6 : k ≠ "usdtLimit")
    (h7 : k ≠ "tokenLimits") (h8 : k ≠ "contracts") :
    url'.getParam k = url.getParam k := by
  unfold applySessionPermissionParams at h
  split at h
  next => simp at h
  next usdcTo hTo =>
  split at h
  next => simp at h
  next usdcAmount hAmt =>
  split at h
  next hboth =>
    split at h
    next => simp at h
    next =>
      rw [applySessionPermissionLimits_preserves _ _ _ _ _ h h4 h5 h6 h7 h8]
      rw [getParam_setParam_ne _ _ _ _ h3, getParam_setParam_ne _ _ _ _ h2,
        getParam_setParam_ne _ _ _ _ h1]
  next =>
    exact applySessionPermissionLimits_preserves _ _ _ _ _ h h4 h5 h6 h7 h8

/-! ### C1 — expired requests are rejected at ingestion, before decryption -/

/-- C1: for every stored session request whose `expiresAt` lies in the past
at ingestion time, ingesting any ciphertext against that request fails with
the expired-request error and leaves the store untouched — for every
decryption/parsing environment, in particular one whose decryption would
succeed, so the expiry check precedes decryption.  Both `wallet
start-session` and the callback flow ingest through `decryptAndSaveSession`. -/
theorem C1_expired_request_rejected_at_ingestion
    (env : IngestEnv) (store : Store) (name ciphertext rid : String) (now : Int)
    (request : WalletRequest) (e : Int)
    (hreq : loadWalletRequest store rid = some request)
    (hexp : dateParse request.expiresAt = .fin e)
    (hpast : e < now) :
    decryptAndSaveSession env store name ciphertext rid now =
      (store, .error (.expiredRequest rid request.expiresAt)) := by
  unfold decryptAndSaveSession ingestChecks
  simp [hreq, hexp, hpast, JsNumber.isFinite, JsNumber.toIntD]

/-- C1 witness: a concrete expired request, in the environment whose sealed
box always opens and whose payload would validate, still fails with the
expired-request error. -/
theorem C1_expired_request_rejected_at_ingestion_witness :
    loadWalletRequest storeWithRequest "RID1" = some sampleRequest ∧
    dateParse sampleRequest.expiresAt = .fin 7201000 ∧
    (7201000 : Int) < 7201001 ∧
    decryptAndSaveSession sampleIngestEnv storeWithRequest "main" "CT" "RID1" 7201001 =
      (storeWithRequest, .error (.expiredRequest "RID1" (.iso 7201000))) :=
  ⟨rfl, rfl, by norm_num,
   C1_expired_request_rejected_at_ingestion sampleIngestEnv storeWithRequest
     "main" "CT" "RID1" 7201001 sampleRequest 7201000 rfl rfl (by norm_num)⟩

/-! ### Store-lookup lemmas -/

theorem lookup_filterKey_ne {α : Type} (l : List (String × α)) (k k2 : String)
    (h : k2 ≠ k) : (l.filter (fun p => p.1 != k)).lookup k2 = l.lookup k2 := by
  induction l with
  | nil => simp
  | cons p rest ih =>
      obtain ⟨a, b⟩ := p
      by_cases ha : a = k
      · subst ha
        have hba : (k2 == a) = false := beq_eq_false_iff_ne.mpr h
        have hdrop : ((a, b).1 != a) = false := by simp
        simp only [List.filter, hdrop, List.lookup, hba, ih]
      · have hkeep : ((a, b).1 != k) = true := by simp [ha]
        simp only [List.filter, hkeep, List.lookup, ih]

theorem lookup_setAssoc_self {α : Type} (ps : List (String × α)) (k : String) (v : α) :
    (setAssoc ps k v).lookup k = some v := by
  induction ps with
  | nil => simp [setAssoc, List.lookup]
  | cons p rest ih =>
      obtain ⟨k', v'⟩ := p
      by_cases h : k' = k
      · subst h; simp [setAssoc, List.lookup]
      · have hbk : (k == k') = false := beq_eq_false_iff_ne.mpr (Ne.symm h)
        simp only [setAssoc, if_neg h, List.lookup, hbk, ih]

theorem lookup_setAssoc_ne {α : Type} (ps : List (String × α)) (k : String) (v : α)
    (k2 : String) (h : k2 ≠ k) : (setAssoc ps k v).lookup k2 = ps.lookup k2 := by
  induction ps with
  | nil =>
      have hbk : (k2 == k) = false := beq_eq_false_iff_ne.mpr h
      simp [setAssoc, List.lookup, hbk]
  | cons p rest ih =>
      obtain ⟨k', v'⟩ := p
      by_cases hk : k' = k
      · subst hk
        have hbk : (k2 == k') = false := beq_eq_false_iff_ne.mpr h
        simp only [setAssoc, if_pos rfl, List.lookup, hbk,
          lookup_filterKey_ne rest k' k2 h]
      · simp only [setAssoc, if_neg hk, List.lookup, ih]

theorem loadWalletRequest_save_self (store : Store) (rid : String) (req : WalletRequest) :
    loadWalletRequest (saveWalletRequest store rid req) rid = some req :=
  lookup_setAssoc_self store.requests rid req

theorem loadWalletSession_save_self (store : Store) (name : String) (rec : WalletSessionRec) :
    loadWalletSession (saveWalletSession store name rec) name = some rec :=
  lookup_setAssoc_self store.sessions name rec

/-! ### Approval-URL lemmas -/

theorem buildConnectorLinkUrl_getParam (base : Url) (r n p c : String)
    (cb pak : Option String) (k : String)
    (hcb : k ≠ "callbackUrl") (hak : k ≠ "accessKey") :
    (buildConnectorLinkUrl base r n p c cb pak).getParam k =
      ((((({ origin := base.origin,
             pathname := stripTrailingSlash base.pathname ++ "/link",
             searchParams := base.searchParams } : Url).setParam "rid" r).setParam
             "wallet" n).setParam "pub" p).setParam "chain" c).getParam k := by
  simp only [buildConnectorLinkUrl]
  cases cb with
  | some v =>
      by_cases hp : jsTruthyStr pak = true
      · rw [if_pos hp, getParam_setParam_ne _ _ _ _ hak,
          getParam_setParam_ne _ _ _ _ hcb]
      · rw [if_neg hp, getParam_setParam_ne _ _ _ _ hcb]
  | none =>
      by_cases hp : jsTruthyStr pak = true
      · rw [if_pos hp, getParam_setParam_ne _ _ _ _ hak]
      · rw [if_neg hp]

theorem buildConnectorLinkUrl_pub (base : Url) (r n p c : String)
    (cb pak : Option String) :
    (buildConnectorLinkUrl base r n p c cb pak).getParam "pub" = some p := by
  rw [buildConnectorLinkUrl_getParam _ _ _ _ _ _ _ _ (by decide) (by decide),
    getParam_setParam_ne _ _ _ _ (by decide), getParam_setParam_self]

theorem buildConnectorLinkUrl_rid (base : Url) (r n p c : String)
    (cb pak : Option String) :
    (buildConnectorLinkUrl base r n p c cb pak).getParam "rid" = some r := by
  rw [buildConnectorLinkUrl_getParam _ _ _ _ _ _ _ _ (by decide) (by decide),
    getParam_setParam_ne _ _ _ _ (by decide), getParam_setParam_ne _ _ _ _ (by decide),
    getParam_setParam_ne _ _ _ _ (by decide), getParam_setParam_self]

theorem buildConnectorLinkUrl_wallet (base : Url) (r n p c : String)
    (cb pak : Option String) :
    (buildConnectorLinkUrl base r n p c cb pak).getParam "wallet" = some n := by
  rw [buildConnectorLinkUrl_getParam _ _ _ _ _ _ _ _ (by decide) (by decide),
    getParam_setParam_ne _ _ _ _ (by decide), getParam_setParam_ne _ _ _ _ (by decide),
    getParam_setParam_self]

theorem buildConnectorLinkUrl_chain (base : Url) (r n p c : String)
    (cb pak : Option String) :
    (buildConnectorLinkUrl base r n p c cb pak).getParam "chain" = some c := by
  rw [buildConnectorLinkUrl_getParam _ _ _ _ _ _ _ _ (by decide) (by decide),
    getParam_setParam_self]

/-! ### Inversion of the create commands -/

theorem walletCreate_ok_inversion
    (env : CreateEnv) (fsys : FileSys) (store : Store) (args : List String)
    (now : Int) (rid : String) (kp : Keypair) (store' : Store) (out : CreateOk)
    (h : walletCreate env fsys store args now rid kp = (store', .ok out)) :
    ∃ nameA chainA akA,
      getArg fsys args "--name" = .ok nameA ∧
      getArg fsys args "--chain" = .ok chainA ∧
      getArg fsys args "--access-key" = .ok akA ∧
      store' = saveWalletRequest store rid
        { rid := rid, walletName := jsOr nameA "main",
          chain := normalizeChain (jsOr chainA "polygon"),
          createdAt := toISOString now,
          expiresAt := toISOString (now + 2 * 60 * 60 * 1000),
          publicKeyB64u := b64urlEncode kp.publicKey,
          privateKeyB64u := b64urlEncode kp.secretKey,
          projectAccessKey := jsOrOpt (jsOrOpt akA env.projectAccessKeyEnv) none } ∧
      out.rid = rid ∧ out.walletName = jsOr nameA "main" ∧
      out.chain = normalizeChain (jsOr chainA "polygon") ∧
      out.expiresAt = toISOString (now + 2 * 60 * 60 * 1000) ∧
      applySessionPermissionParams fsys
        (buildConnectorLinkUrl (env.connectorUrl.getD defaultConnectorUrl) rid
          (jsOr nameA "main") (b64urlEncode kp.publicKey)
          (normalizeChain (jsOr chainA "polygon")) none
          (jsOrOpt akA env.projectAccessKeyEnv)) args = .ok out.url := by
  simp only [walletCreate] at h
  split at h
  next => simp at h
  next nameA hname =>
  split at h
  next => simp at h
  next chainA hchain =>
  split at h
  next => simp at h
  next akA hak =>
  split at h
  next => simp at h
  next url2 happly =>
  simp only [Prod.mk.injEq, Except.ok.injEq] at h
  obtain ⟨hstore, hout⟩ := h
  subst hstore
  subst hout
  exact ⟨nameA, chainA, akA, hname, hchain, hak, rfl, rfl, rfl, rfl, rfl, happly⟩

theorem walletCreateAndWaitPrepare_ok_inversion
    (env : CreateEnv) (fsys : FileSys) (store : Store) (args : List String)
    (now : Int) (rid : String) (kp : Keypair) (port : Nat)
    (store' : Store) (out : WaitPrepareOk)
    (h : walletCreateAndWaitPrepare env fsys store args now rid kp port =
      (store', .ok out)) :
    ∃ nameA chainA toA akA,
      getArg fsys args "--name" = .ok nameA ∧
      getArg fsys args "--chain" = .ok chainA ∧
      getArg fsys args "--timeout" = .ok toA ∧
      getArg fsys args "--access-key" = .ok akA ∧
      store' = saveWalletRequest store rid
        { rid := rid, walletName := jsOr nameA "main",
          chain := normalizeChain (jsOr chainA "polygon"),
          createdAt := toISOString now,
          expiresAt := toISOString (now + 2 * 60 * 60 * 1000),
          publicKeyB64u := b64urlEncode kp.publicKey,
          privateKeyB64u := b64urlEncode kp.secretKey,
          projectAccessKey := jsOrOpt (jsOrOpt akA env.projectAccessKeyEnv) none } ∧
      out.rid = rid ∧ out.walletName = jsOr nameA "main" ∧
      out.chain = normalizeChain (jsOr chainA "polygon") ∧
      out.expiresAt = toISOString (now + 2 * 60 * 60 * 1000) ∧
      out.callbackPort = port ∧
      out.timeoutSec = parseIntJs (jsOr toA "300") ∧
      applySessionPermissionParams fsys
        (buildConnectorLinkUrl (env.connectorUrl.getD defaultConnectorUrl) rid
          (jsOr nameA "main") (b64urlEncode kp.publicKey)
          (normalizeChain (jsOr chainA "polygon"))
          (some ("http://localhost:" ++ toString port ++ "/callback"))
          (jsOrOpt akA env.projectAccessKeyEnv)) args = .ok out.url := by
  simp only [walletCreateAndWaitPrepare] at h
  split at h
  next => simp at h
  next nameA hname =>
  split at h
  next => simp at h
  next chainA hchain =>
  split at h
  next => simp at h
  next toA hto =>
  split at h
  next => simp at h
  next akA hak =>
  split at h
  next => simp at h
  next url2 happly =>
  simp only [Prod.mk.injEq, Except.ok.injEq] at h
  obtain ⟨hstore, hout⟩ := h
  subst hstore
  subst hout
  exact ⟨nameA, chainA, toA, akA, hname, hchain, hto, hak, rfl, rfl, rfl, rfl, rfl,
    rfl, rfl, happly⟩

theorem walletCreate_snd_ignores_secret
    (env : CreateEnv) (fsys : FileSys) (store : Store) (args : List String)
    (now : Int) (rid : String) (kp kp' : Keypair)
    (h : kp'.publicKey = kp.publicKey) :
    (walletCreate env fsys store args now rid kp').2 =
      (walletCreate env fsys store args now rid kp).2 := by
  simp only [walletCreate, h]
  split
  · rfl
  split
  · rfl
  split
  · rfl
  split <;> rfl

theorem walletCreateAndWaitPrepare_snd_ignores_secret
    (env : CreateEnv) (fsys : FileSys) (store : Store) (args : List String)
    (now : Int) (rid : String) (kp kp' : Keypair) (port : Nat)
    (h : kp'.publicKey = kp.publicKey) :
    (walletCreateAndWaitPrepare env fsys store args now rid kp' port).2 =
      (walletCreateAndWaitPrepare env fsys store args now rid kp port).2 := by
  simp only [walletCreateAndWaitPrepare, h]
  split
  · rfl
  split
  · rfl
  split
  · rfl
  split
  · rfl
  split <;> rfl

/-! ### C2 — approval URLs carry the public key and are independent of the
private key -/

/-- C2: on every request creation (`walletCreate` and the creation half of
`walletCreateAndWait`) the returned approval URL's `pub` parameter is the
base64url encoding of the fresh public key; the whole observable output
(URL included) is a function of the public half alone — two keypairs with
the same public key produce identical output, so the private half can never
appear in the URL; and the private half is stored only in the persisted
request record. -/
theorem C2_approval_url_embeds_only_public_key
    (env : CreateEnv) (fsys : FileSys) (store : Store) (args : List String)
    (now : Int) (rid : String) (kp : Keypair) (port : Nat) :
    (∀ store' out, walletCreate env fsys store args now rid kp = (store', .ok out) →
        out.url.getParam "pub" = some (b64urlEncode kp.publicKey) ∧
        ∃ req, loadWalletRequest store' rid = some req ∧
          req.publicKeyB64u = b64urlEncode kp.publicKey ∧
          req.privateKeyB64u = b64urlEncode kp.secretKey) ∧
    (∀ kp', kp'.publicKey = kp.publicKey →
        (walletCreate env fsys store args now rid kp').2 =
          (walletCreate env fsys store args now rid kp).2) ∧
    (∀ store' out,
        walletCreateAndWaitPrepare env fsys store args now rid kp port =
          (store', .ok out) →
        out.url.getParam "pub" = some (b64urlEncode kp.publicKey) ∧
        ∃ req, loadWalletRequest store' rid = some req ∧
          req.publicKeyB64u = b64urlEncode kp.publicKey ∧
          req.privateKeyB64u = b64urlEncode kp.secretKey) ∧
    (∀ kp', kp'.publicKey = kp.publicKey →
        (walletCreateAndWaitPrepare env fsys store args now rid kp' port).2 =
          (walletCreateAndWaitPrepare env fsys store args now rid kp port).2) := by
  refine ⟨?_, fun kp' hp =>
      walletCreate_snd_ignores_secret env fsys store args now rid kp kp' hp, ?_,
    fun kp' hp =>
      walletCreateAndWaitPrepare_snd_ignores_secret env fsys store args now rid
        kp kp' port hp⟩
  · intro store' out h
    obtain ⟨nameA, chainA, akA, _, _, _, hstore, _, _, _, _, happly⟩ :=
      walletCreate_ok_inversion env fsys store args now rid kp store' out h
    constructor
    · rw [applySessionPermissionParams_preserves _ _ _ _ _ happly (by decide)
        (by decide) (by decide) (by decide) (by decide) (by decide) (by decide)
        (by decide)]
      exact buildConnectorLinkUrl_pub _ _ _ _ _ _ _
    · subst hstore
      exact ⟨_, loadWalletRequest_save_self _ _ _, rfl, rfl⟩
  · intro store' out h
    obtain ⟨nameA, chainA, toA, akA, _, _, _, _, hstore, _, _, _, _, _, _, happly⟩ :=
      walletCreateAndWaitPrepare_ok_inversion env fsys store args now rid kp port
        store' out h
    constructor
    · rw [applySessionPermissionParams_preserves _ _ _ _ _ happly (by decide)
        (by decide) (by decide) (by decide) (by decide) (by decide) (by decide)
        (by decide)]
      exact buildConnectorLinkUrl_pub _ _ _ _ _ _ _
    · subst hstore
      exact ⟨_, loadWalletRequest_save_self _ _ _, rfl, rfl⟩

/-- C2 witness: with the fixtures, the outputs for two keypairs sharing a
public key coincide, and the concrete run embeds `AQID` as `pub` while the
persisted record holds `BAUG` as the private key. -/
theorem C2_approval_url_embeds_only_public_key_witness :
    ((walletCreate sampleCreateEnv noFiles emptyStore [] 1000 "RID1" sampleKeypairAlt).2 =
      (walletCreate sampleCreateEnv noFiles emptyStore [] 1000 "RID1" sampleKeypair).2) ∧
    (sampleCreateOut.url.getParam "pub" = some (b64urlEncode sampleKeypair.publicKey) ∧
      ∃ req, loadWalletRequest storeWithRequest "RID1" = some req ∧
        req.publicKeyB64u = b64urlEncode sampleKeypair.publicKey ∧
        req.privateKeyB64u = b64urlEncode sampleKeypair.secretKey) :=
  ⟨(C2_approval_url_embeds_only_public_key sampleCreateEnv noFiles emptyStore []
      1000 "RID1" sampleKeypair 0).2.1 sampleKeypairAlt rfl,
   (C2_approval_url_embeds_only_public_key sampleCreateEnv noFiles emptyStore []
      1000 "RID1" sampleKeypair 0).1 storeWithRequest sampleCreateOut rfl⟩

/-! ### C7 — request TTL and URL round-trip -/

/-- C7: whenever `walletCreate` succeeds, the persisted request reloaded by
its id has `expiresAt - createdAt` of exactly two hours, its stored public
key equals the `pub` query parameter of the returned approval URL, and the
URL also embeds the request id, wallet name and chain identifier.  (The
store itself is modelled from the spec, §4.5.) -/
theorem C7_create_request_ttl_and_url_roundtrip
    (env : CreateEnv) (fsys : FileSys) (store : Store) (args : List String)
    (now : Int) (rid : String) (kp : Keypair) (store' : Store) (out : CreateOk)
    (h : walletCreate env fsys store args now rid kp = (store', .ok out)) :
    ∃ req, loadWalletRequest store' rid = some req ∧
      (∃ c e, req.createdAt = .iso c ∧ req.expiresAt = .iso e ∧
        e - c = 2 * 60 * 60 * 1000) ∧
      out.url.getParam "pub" = some req.publicKeyB64u ∧
      out.url.getParam "rid" = some rid ∧
      out.url.getParam "wallet" = some req.walletName ∧
      out.url.getParam "chain" = some req.chain := by
  obtain ⟨nameA, chainA, akA, _, _, _, hstore, _, _, _, _, happly⟩ :=
    walletCreate_ok_inversion env fsys store args now rid kp store' out h
  subst hstore
  refine ⟨_, loadWalletRequest_save_self _ _ _,
    ⟨now, now + 2 * 60 * 60 * 1000, rfl, rfl, by ring⟩, ?_, ?_, ?_, ?_⟩
  all_goals
    rw [applySessionPermissionParams_preserves _ _ _ _ _ happly (by decide)
      (by decide) (by decide) (by decide) (by decide) (by decide) (by decide)
      (by decide)]
  · exact buildConnectorLinkUrl_pub _ _ _ _ _ _ _
  · exact buildConnectorLinkUrl_rid _ _ _ _ _ _ _
  · exact buildConnectorLinkUrl_wallet _ _ _ _ _ _ _
  · exact buildConnectorLinkUrl_chain _ _ _ _ _ _ _

/-- C7 witness: the concrete fixture run. -/
theorem C7_create_request_ttl_and_url_roundtrip_witness :
    ∃ req, loadWalletRequest storeWithRequest "RID1" = some req ∧
      (∃ c e, req.createdAt = .iso c ∧ req.expiresAt = .iso e ∧
        e - c = 2 * 60 * 60 * 1000) ∧
      sampleCreateOut.url.getParam "pub" = some req.publicKeyB64u ∧
      sampleCreateOut.url.getParam "rid" = some "RID1" ∧
      sampleCreateOut.url.getParam "wallet" = some req.walletName ∧
      sampleCreateOut.url.getParam "chain" = some req.chain :=
  C7_create_request_ttl_and_url_roundtrip sampleCreateEnv noFiles emptyStore []
    1000 "RID1" sampleKeypair storeWithRequest sampleCreateOut rfl

/-! ### C8 — one-off grant flag pairing (corrected) -/

/-- C8 counterexample: with `--usdc-to` alone, the command does fail with
the usage error, but the pending request record has already been persisted
when it fails — the error is not raised before the request is created. -/
theorem C8_usage_error_counterexample :
    (walletCreate sampleCreateEnv noFiles emptyStore ["--usdc-to", "0xabc"] 1000
        "RID1" sampleKeypair).2 =
      .error "Must provide both --usdc-to and --usdc-amount" ∧
    loadWalletRequest
      (walletCreate sampleCreateEnv noFiles emptyStore ["--usdc-to", "0xabc"] 1000
        "RID1" sampleKeypair).1 "RID1" = some sampleRequest :=
  ⟨rfl, rfl⟩

/-- C8 (amended): supplying exactly one of `--usdc-to` / `--usdc-amount` is
a usage error — the command fails and returns no URL, though the pending
request record has already been persisted by then; supplying both encodes
the grant as the `erc20`/`erc20To`/`erc20Amount` parameters; supplying
neither leaves those parameters untouched. -/
theorem C8_one_off_grant_flag_pairing
    (fsys : FileSys) (args : List String) (toV amt : Option String)
    (hto : getArg fsys args "--usdc-to" = .ok toV)
    (hamt : getArg fsys args "--usdc-amount" = .ok amt) :
    ((jsTruthyStr toV || jsTruthyStr amt) = true →
      (jsTruthyStr toV && jsTruthyStr amt) = false →
      (∀ u, applySessionPermissionParams fsys u args =
        .error "Must provide both --usdc-to and --usdc-amount") ∧
      (∀ env store now rid kp nameA chainA akA,
        getArg fsys args "--name" = .ok nameA →
        getArg fsys args "--chain" = .ok chainA →
        getArg fsys args "--access-key" = .ok akA →
        (walletCreate env fsys store args now rid kp).2 =
          .error "Must provide both --usdc-to and --usdc-amount" ∧
        ∃ req, loadWalletRequest (walletCreate env fsys store args now rid kp).1
          rid = some req)) ∧
    (jsTruthyStr toV = true → jsTruthyStr amt = true →
      ∀ u url', applySessionPermissionParams fsys u args = .ok url' →
        url'.getParam "erc20" = some "usdc" ∧
        url'.getParam "erc20To" = some (toV.getD "") ∧
        url'.getParam "erc20Amount" = some (amt.getD "")) ∧
    (jsTruthyStr toV = false → jsTruthyStr amt = false →
      ∀ u url', applySessionPermissionParams fsys u args = .ok url' →
        url'.getParam "erc20" = u.getParam "erc20" ∧
        url'.getParam "erc20To" = u.getParam "erc20To" ∧
        url'.getParam "erc20Amount" = u.getParam "erc20Amount") := by
  refine ⟨?_, ?_, ?_⟩
  · intro hOr hNand
    have herr : ∀ u, applySessionPermissionParams fsys u args =
        .error "Must provide both --usdc-to and --usdc-amount" := by
      intro u
      have hcond : (¬ jsTruthyStr toV = true) ∨ (¬ jsTruthyStr amt = true) := by
        cases hb1 : jsTruthyStr toV with
        | false => exact Or.inl (by simp [hb1])
        | true =>
            cases hb2 : jsTruthyStr amt with
            | false => exact Or.inr (by simp [hb2])
            | true => rw [hb1, hb2] at hNand; simp at hNand
      simp only [applySessionPermissionParams, hto, hamt]
      rw [if_pos hOr, if_pos hcond]
    refine ⟨herr, ?_⟩
    intro env store now rid kp nameA chainA akA hname hchain hak
    refine ⟨?_, ?_⟩
    · simp only [walletCreate, hname, hchain, hak, herr]
    · simp only [walletCreate, hname, hchain, hak, herr]
      exact ⟨_, loadWalletRequest_save_self _ _ _⟩
  · intro hb1 hb2 u url' h
    simp only [applySessionPermissionParams, hto, hamt, hb1, hb2] at h
    simp at h
    refine ⟨?_, ?_, ?_⟩
    · rw [applySessionPermissionLimits_preserves _ _ _ _ _ h (by decide)
        (by decide) (by decide) (by decide) (by decide),
        getParam_setParam_ne _ _ _ _ (by decide),
        getParam_setParam_ne _ _ _ _ (by decide), getParam_setParam_self]
    · rw [applySessionPermissionLimits_preserves _ _ _ _ _ h (by decide)
        (by decide) (by decide) (by decide) (by decide),
        getParam_setParam_ne _ _ _ _ (by decide), getParam_setParam_self]
    · rw [applySessionPermissionLimits_preserves _ _ _ _ _ h (by decide)
        (by decide) (by decide) (by decide) (by decide), getParam_setParam_self]
  · intro hb1 hb2 u url' h
    simp only [applySessionPermissionParams, hto, hamt, hb1, hb2] at h
    simp at h
    refine ⟨?_, ?_, ?_⟩ <;>
      exact applySessionPermissionLimits_preserves _ _ _ _ _ h (by decide)
        (by decide) (by decide) (by decide) (by decide)

/-- C8 witness: the usage error at `--usdc-to` alone, concretely. -/
theorem C8_one_off_grant_flag_pairing_witness :
    applySessionPermissionParams noFiles defaultConnectorUrl
      ["--usdc-to", "0xabc"] =
      .error "Must provide both --usdc-to and --usdc-amount" :=
  ((C8_one_off_grant_flag_pairing noFiles ["--usdc-to", "0xabc"] (some "0xabc")
      none rfl rfl).1 (by decide) (by decide)).1 defaultConnectorUrl

/-! ### Dispatcher lemmas -/

theorem syncStateTail_ok_walletAddress (env : DispatchEnv)
    (session : WalletSessionRec) (s : SyncOk)
    (h : syncStateTail env session = .ok s) :
    s.walletAddress = session.walletAddress := by
  simp only [syncStateTail] at h
  split at h
  next => simp at h
  next =>
  split at h
  next => simp at h
  next =>
  split at h
  next => simp at h
  next =>
  split at h
  next => simp at h
  next =>
  split at h
  next => simp at h
  next =>
  simp only [Except.ok.injEq] at h
  subst h
  rfl

theorem syncStateAndGetStorage_ok_walletAddress (env : DispatchEnv) (store : Store)
    (walletName : String) (now : Int) (s : SyncOk)
    (h : syncStateAndGetStorage env store walletName now = .ok s) :
    ∃ session, loadWalletSession store walletName = some session ∧
      s.walletAddress = session.walletAddress := by
  unfold syncStateAndGetStorage at h
  split at h
  next => simp at h
  next session hsess =>
  split at h
  next => simp at h
  next =>
  split at h
  next => simp at h
  next =>
  split at h
  next => simp at h
  next =>
  split at h
  next d =>
    split at h
    next =>
      split at h
      next => simp at h
      next => exact ⟨session, hsess, syncStateTail_ok_walletAddress env session s h⟩
    next => exact ⟨session, hsess, syncStateTail_ok_walletAddress env session s h⟩
  next => exact ⟨session, hsess, syncStateTail_ok_walletAddress env session s h⟩

/-! ### C3 — dry-run dispatch makes no fee lookup and never broadcasts -/

/-- C3: with `broadcast = false` the dispatcher never calls the
wallet-client's `sendTransaction`, performs no fee-option lookup
(`getFeeOptions`, `getFeeTokens`, indexer), and when it succeeds it returns
the dry-run descriptor carrying the stored session's wallet address. -/
theorem C3_dry_run_never_broadcasts
    (env : DispatchEnv) (store : Store) (walletName : String) (chainId : Int)
    (transactions : List String) (preferNativeFee : Bool) (now : Int) :
    (ClientCall.sendTxCall ∉ (runDappClientTx env store walletName chainId
        transactions false preferNativeFee now).1 ∧
     ClientCall.feeOptionsCall ∉ (runDappClientTx env store walletName chainId
        transactions false preferNativeFee now).1 ∧
     ClientCall.feeTokensCall ∉ (runDappClientTx env store walletName chainId
        transactions false preferNativeFee now).1 ∧
     ClientCall.indexerCall ∉ (runDappClientTx env store walletName chainId
        transactions false preferNativeFee now).1) ∧
    (∀ r, (runDappClientTx env store walletName chainId transactions false
        preferNativeFee now).2 = .ok r →
      ∃ session, loadWalletSession store walletName = some session ∧
        r = .dryRun session.walletAddress) := by
  unfold runDappClientTx
  cases hsync : syncStateAndGetStorage env store walletName now with
  | error e => simp
  | ok s =>
    cases hinit : env.clientInit with
    | error e => simp
    | ok isInit =>
      cases isInit with
      | false => simp
      | true =>
        refine ⟨⟨by simp, by simp, by simp, by simp⟩, ?_⟩
        intro r hr
        simp at hr
        obtain ⟨session, hsess, haddr⟩ :=
          syncStateAndGetStorage_ok_walletAddress env store walletName now s hsync
        subst hr
        exact ⟨session, hsess, by rw [haddr]⟩

/-- C3 witness: the fixture dispatch with `broadcast = false` returns the
dry-run descriptor for the stored wallet address. -/
theorem C3_dry_run_never_broadcasts_witness :
    ∃ session, loadWalletSession storeWithSessionRec "main" = some session ∧
      TxOutcome.dryRun "0xwallet" = .dryRun session.walletAddress :=
  (C3_dry_run_never_broadcasts (sampleDispatchEnv (.fin 9999999))
      storeWithSessionRec "main" 137 ["tx"] false 5000000).2
    (.dryRun "0xwallet") rfl

/-! ### C4 — expired explicit-session deadline (corrected) -/

/-- C4 counterexample: a stored session whose explicit-session deadline is
`0` — which is ≤ now — is not rejected: the `if (deadline)` truthiness
guard skips the expiry check for the falsy value `0`, and the dispatcher
proceeds through fee lookup all the way to a broadcast instead of failing
with the expired-session error. -/
theorem C4_deadline_zero_not_rejected :
    ((0 : Int) ≤ Int.fdiv 5000000 1000) ∧
    runDappClientTx (sampleDispatchEnv (.fin 0)) storeWithSessionRec "main" 137
        ["tx"] true false 5000000 =
      ([ClientCall.initClient, ClientCall.feeTokensCall, ClientCall.sendTxCall],
       .ok (.sent "0xwallet" "0xhash"
         (some { token := some sampleFeeToken, toAddr := "0xpay",
                 value := "10000", gasLimit := 0 }))) :=
  ⟨by decide, rfl⟩

/-- C4 (amended): for every stored session whose explicit-session deadline
is a truthy (nonzero) finite number less than or equal to the current time
in seconds, the dispatcher fails with the expired-session message
instructing the caller to re-link the wallet, with an empty outbound-call
trace — before any fee-option lookup or wallet-client call. -/
theorem C4_expired_deadline_fatal_before_fee_lookup
    (env : DispatchEnv) (store : Store) (walletName : String) (chainId : Int)
    (transactions : List String) (broadcast preferNativeFee : Bool) (now : Int)
    (session : WalletSessionRec) (es : ExplicitSession) (d : Int)
    (hsess : loadWalletSession store walletName = some session)
    (hraw : session.explicitSession ≠ "")
    (hparse : env.parseExplicitSession session.explicitSession = .ok (some es))
    (hpk : jsTruthyStr es.pk = true)
    (hdl : es.config.bind (fun c => c.deadline) = some (.fin d))
    (hdz : d ≠ 0)
    (hpast : d ≤ Int.fdiv now 1000) :
    runDappClientTx env store walletName chainId transactions broadcast
      preferNativeFee now =
      ([], .error ("Explicit session has expired (deadline " ++ toString d ++
        "). Re-link wallet to mint a fresh session.")) := by
  have hsync : syncStateAndGetStorage env store walletName now =
      .error ("Explicit session has expired (deadline " ++ toString d ++
        "). Re-link wallet to mint a fresh session.") := by
    have hpk2 : (¬ jsTruthyStr es.pk = true) = False := by simp [hpk]
    have htr : JsNumber.truthy (.fin d) = true := by simp [JsNumber.truthy, hdz]
    unfold syncStateAndGetStorage
    simp only [hsess, hparse, Option.some_bind]
    rw [if_neg hraw]
    simp only [hpk2, if_false]
    rw [hdl]
    simp [htr, JsNumber.isFinite, JsNumber.toIntD, hpast]
  unfold runDappClientTx
  simp only [hsync]

/-- C4 witness: deadline `4999` (truthy, at-or-before `nowSec = 5000`) is
fatal with an empty outbound-call trace. -/
theorem C4_expired_deadline_fatal_before_fee_lookup_witness :
    runDappClientTx (sampleDispatchEnv (.fin 4999)) storeWithSessionRec "main"
        137 ["tx"] true false 5000000 =
      ([], .error ("Explicit session has expired (deadline " ++
        toString (4999 : Int) ++ "). Re-link wallet to mint a fresh session.")) :=
  C4_expired_deadline_fatal_before_fee_lookup (sampleDispatchEnv (.fin 4999))
    storeWithSessionRec "main" 137 ["tx"] true false 5000000 sampleSessionRec
    { pk := some "0xsessionpk", config := some { deadline := some (.fin 4999) },
      loginMethod := none, userEmail := none } 4999 rfl (by decide) rfl
    (by decide) rfl (by decide) (by decide)

/-! ### C9 — callback-server gatekeeping (corrected) -/

/-- C9 counterexample: an `OPTIONS` request (method ≠ POST) is answered with
204, not 4xx; and a POST to path `/callbackX` — which is not `/callback` —
is accepted with 200 and resolves the wait, because the handler only checks
`startsWith('/callback')`.  (`HttpReq` fields: method, url, body, bodySize;
`HandlerResult` fields: status, resolved ciphertext.) -/
theorem C9_callback_rejection_counterexample :
    callbackHandler ⟨"OPTIONS", "/callback", .form [], 0⟩ = ⟨204, none⟩ ∧
    ¬ (400 ≤ 204 ∧ 204 < 500) ∧
    callbackHandler ⟨"POST", "/callbackX", .form [("ciphertext", "abc")], 10⟩ =
      ⟨200, some "abc"⟩ :=
  ⟨rfl, by decide, rfl⟩

/-- C9 (amended): the handler answers CORS preflight (`OPTIONS`) with 204
without resolving; every other request whose method is not `POST` or whose
URL does not start with `/callback` gets 404 without resolving; an
oversized body gets 413 without resolving; the wait is resolved only by a
`POST` whose URL starts with `/callback`, within the body limit, whose
parsed body carries a non-empty string `ciphertext` — and every
non-resolving request other than the preflight is answered with a 4xx
status. -/
theorem C9_callback_gatekeeping (req : HttpReq) :
    (req.method = "OPTIONS" → callbackHandler req = ⟨204, none⟩) ∧
    (req.method ≠ "OPTIONS" →
      (req.method ≠ "POST" ∨ strStartsWith req.url "/callback" = false) →
      callbackHandler req = ⟨404, none⟩) ∧
    (req.method = "POST" → strStartsWith req.url "/callback" = true →
      req.bodySize > MAX_BODY → callbackHandler req = ⟨413, none⟩) ∧
    (∀ st c, callbackHandler req = ⟨st, some c⟩ →
      req.method = "POST" ∧ strStartsWith req.url "/callback" = true ∧
      req.bodySize ≤ MAX_BODY ∧ st = 200 ∧ c ≠ "" ∧
      ∃ data, parseCallbackBody req.body = some data ∧
        lookupLast data "ciphertext" = some (.str c)) ∧
    ((callbackHandler req).resolvedCiphertext = none →
      req.method = "OPTIONS" ∨
      (400 ≤ (callbackHandler req).status ∧ (callbackHandler req).status < 500)) := by
  refine ⟨?_, ?_, ?_, ?_, ?_⟩
  · intro hm
    simp [callbackHandler, hm]
  · intro hm hbad
    have hbad2 : req.method ≠ "POST" ∨ ¬ strStartsWith req.url "/callback" = true := by
      rcases hbad with h | h
      · exact Or.inl h
      · exact Or.inr (by simp [h])
    simp only [callbackHandler, if_neg hm, if_pos hbad2]
  · intro hm hs hsz
    have hno : ¬ req.method = "OPTIONS" := by rw [hm]; decide
    have h2 : ¬ (req.method ≠ "POST" ∨ ¬ strStartsWith req.url "/callback" = true) := by
      rw [hm]; simp [hs]
    simp only [callbackHandler, if_neg hno, if_neg h2, if_pos hsz]
  · intro st c h
    by_cases hm : req.method = "OPTIONS"
    · simp [callbackHandler, hm] at h
    by_cases hp : req.method = "POST"
    case neg => simp [callbackHandler, hm, hp] at h
    by_cases hs : strStartsWith req.url "/callback" = true
    case neg =>
      have hbad : req.method ≠ "POST" ∨ ¬ strStartsWith req.url "/callback" = true :=
        Or.inr hs
      simp only [callbackHandler, if_neg hm, if_pos hbad] at h
      simp at h
    have h2 : ¬ (req.method ≠ "POST" ∨ ¬ strStartsWith req.url "/callback" = true) := by
      simp [hp, hs]
    by_cases hsz : req.bodySize > MAX_BODY
    · simp only [callbackHandler, if_neg hm, if_neg h2, if_pos hsz] at h
      simp at h
    cases hpb : parseCallbackBody req.body with
    | none =>
        simp only [callbackHandler, if_neg hm, if_neg h2, if_neg hsz, hpb] at h
        simp at h
    | some data =>
      cases hlk : lookupLast data "ciphertext" with
      | none =>
          simp only [callbackHandler, if_neg hm, if_neg h2, if_neg hsz, hpb, hlk] at h
          simp at h
      | some jf =>
        cases jf with
        | other =>
            simp only [callbackHandler, if_neg hm, if_neg h2, if_neg hsz, hpb,
              hlk] at h
            simp at h
        | str s =>
          by_cases hd : s = ""
          · simp only [callbackHandler, if_neg hm, if_neg h2, if_neg hsz, hpb, hlk,
              if_pos hd] at h
            simp at h
          · simp only [callbackHandler, if_neg hm, if_neg h2, if_neg hsz, hpb, hlk,
              if_neg hd] at h
            simp only [HandlerResult.mk.injEq, Option.some.injEq] at h
            obtain ⟨hst, hc⟩ := h
            exact ⟨hp, hs, le_of_not_lt hsz, hst.symm, by rw [← hc]; exact hd,
              data, rfl, by rw [hlk, hc]⟩
  · intro hnone
    by_cases hm : req.method = "OPTIONS"
    · exact Or.inl hm
    right
    by_cases hp : req.method = "POST"
    case neg =>
      have heq : callbackHandler req = ⟨404, none⟩ := by
        simp only [callbackHandler, if_neg hm, if_pos (Or.inl hp : req.method ≠ "POST" ∨
          ¬ strStartsWith req.url "/callback" = true)]
      rw [heq]
      exact ⟨by norm_num, by norm_num⟩
    by_cases hs : strStartsWith req.url "/callback" = true
    case neg =>
      have heq : callbackHandler req = ⟨404, none⟩ := by
        simp only [callbackHandler, if_neg hm, if_pos (Or.inr hs : req.method ≠ "POST" ∨
          ¬ strStartsWith req.url "/callback" = true)]
      rw [heq]
      exact ⟨by norm_num, by norm_num⟩
    have h2 : ¬ (req.method ≠ "POST" ∨ ¬ strStartsWith req.url "/callback" = true) := by
      simp [hp, hs]
    by_cases hsz : req.bodySize > MAX_BODY
    · have heq : callbackHandler req = ⟨413, none⟩ := by
        simp only [callbackHandler, if_neg hm, if_neg h2, if_pos hsz]
      rw [heq]
      exact ⟨by norm_num, by norm_num⟩
    cases hpb : parseCallbackBody req.body with
    | none =>
        have heq : callbackHandler req = ⟨400, none⟩ := by
          simp only [callbackHandler, if_neg hm, if_neg h2, if_neg hsz, hpb]
        rw [heq]
        exact ⟨by norm_num, by norm_num⟩
    | some data =>
      cases hlk : lookupLast data "ciphertext" with
      | none =>
          have heq : callbackHandler req = ⟨400, none⟩ := by
            simp only [callbackHandler, if_neg hm, if_neg h2, if_neg hsz, hpb, hlk]
          rw [heq]
          exact ⟨by norm_num, by norm_num⟩
      | some jf =>
        cases jf with
        | other =>
            have heq : callbackHandler req = ⟨400, none⟩ := by
              simp only [callbackHandler, if_neg hm, if_neg h2, if_neg hsz, hpb, hlk]
            rw [heq]
            exact ⟨by norm_num, by norm_num⟩
        | str s =>
          by_cases hd : s = ""
          · have heq : callbackHandler req = ⟨400, none⟩ := by
              simp only [callbackHandler, if_neg hm, if_neg h2, if_neg hsz, hpb, hlk,
                if_pos hd]
            rw [heq]
            exact ⟨by norm_num, by norm_num⟩
          · exfalso
            have heq : callbackHandler req = ⟨200, some s⟩ := by
              simp only [callbackHandler, if_neg hm, if_neg h2, if_neg hsz, hpb, hlk,
                if_neg hd]
            rw [heq] at hnone
            simp at hnone

/-- C9 witness: the gatekeeping facts at a concrete wrong-method request and
a concrete oversized one. -/
theorem C9_callback_gatekeeping_witness :
    callbackHandler ⟨"GET", "/callback", .form [], 0⟩ = ⟨404, none⟩ ∧
    callbackHandler ⟨"POST", "/callback", .form [("ciphertext", "abc")], 70000⟩ =
      ⟨413, none⟩ :=
  ⟨(C9_callback_gatekeeping ⟨"GET", "/callback", .form [], 0⟩).2.1 (by decide)
      (Or.inl (by decide)),
   (C9_callback_gatekeeping
      ⟨"POST", "/callback", .form [("ciphertext", "abc")], 70000⟩).2.2.1 rfl
      (by decide) (by decide)⟩

/-! ### C10 — the handler never checks `rid` (corrected) -/

/-- C10 counterexample: a well-formed POST to `/callback` whose JSON body
carries a *string* `ciphertext` field does not resolve the wait when that
string is empty — the handler requires a truthy (non-empty) string, so the
claim's "every string ciphertext resolves" fails at `""`. -/
theorem C10_empty_ciphertext_counterexample :
    callbackHandler
        ⟨"POST", "/callback",
         .json (some [("rid", .str "someOtherRid"), ("ciphertext", .str "")]), 10⟩ =
      ⟨400, none⟩ :=
  rfl

/-- C10 (amended): the handler never compares the body's `rid` against the
pending request: every POST whose URL starts with `/callback`, within the
body-size limit, whose parsed body carries a non-empty string `ciphertext`
— whatever its `rid` field holds, if any — resolves the wait with that
ciphertext; and after `walletCreateAndWait` creates a request, the session
is ingested through `decryptAndSaveSession` against the rid generated at
creation time, whose stored record carries exactly the creation keypair. -/
theorem C10_rid_never_checked
    (u : String) (fields : List (String × JField)) (n : Nat) (c : String)
    (hs : strStartsWith u "/callback" = true) (hn : n ≤ MAX_BODY)
    (hlk : lookupLast fields "ciphertext" = some (.str c)) (hc : c ≠ "") :
    callbackHandler ⟨"POST", u, .json (some fields), n⟩ = ⟨200, some c⟩ ∧
    (∀ cenv fsys ienv store args now rid kp port store1 out,
      walletCreateAndWaitPrepare cenv fsys store args now rid kp port =
        (store1, .ok out) →
      (∃ req, loadWalletRequest store1 rid = some req ∧
        req.publicKeyB64u = b64urlEncode kp.publicKey ∧
        req.privateKeyB64u = b64urlEncode kp.secretKey) ∧
      (∀ ct now2,
        walletCreateAndWaitRun cenv fsys ienv store args now rid kp port
          (some ct) now2 =
          (match decryptAndSaveSession ienv store1 out.walletName ct rid now2 with
           | (st2, .error e) => (st2, .error e.message)
           | (st2, .ok r) => (st2, .ok r)))) := by
  constructor
  · have h2 : ¬ (("POST" : String) ≠ "POST" ∨ ¬ strStartsWith u "/callback" = true) := by
      simp [hs]
    have hsz : ¬ (n > MAX_BODY) := not_lt_of_le hn
    simp only [callbackHandler, parseCallbackBody, hlk, if_neg h2, if_neg hsz,
      if_neg hc]
    rw [if_neg (by decide : ¬ ("POST" : String) = "OPTIONS")]
  · intro cenv fsys ienv store args now rid kp port store1 out h
    constructor
    · obtain ⟨nameA, chainA, toA, akA, _, _, _, _, hstore, _, _, _, _, _, _, _⟩ :=
        walletCreateAndWaitPrepare_ok_inversion cenv fsys store args now rid kp
          port store1 out h
      subst hstore
      exact ⟨_, loadWalletRequest_save_self _ _ _, rfl, rfl⟩
    · intro ct now2
      unfold walletCreateAndWaitRun
      rw [h]

/-- C10 witness: a concrete body whose `rid` belongs to another request
still resolves with its ciphertext. -/
theorem C10_rid_never_checked_witness :
    callbackHandler
        ⟨"POST", "/callback",
         .json (some [("rid", .str "someOtherRid"), ("ciphertext", .str "abc")]),
         10⟩ =
      ⟨200, some "abc"⟩ :=
  (C10_rid_never_checked "/callback"
      [("rid", .str "someOtherRid"), ("ciphertext", .str "abc")] 10 "abc"
      (by decide) (by decide) rfl (by decide)).1

/-! ### Ingestion inversion -/

theorem ingestChecks_ok_inversion (env : IngestEnv) (store : Store)
    (ciphertext rid : String) (now : Int) (rec : WalletSessionRec) (res : IngestOk)
    (h : ingestChecks env store ciphertext rid now = .ok (rec, res)) :
    ∃ request, loadWalletRequest store rid = some request ∧
      ¬ ((dateParse request.expiresAt).isFinite = true ∧
        now > (dateParse request.expiresAt).toIntD) ∧
      ∃ decrypted payload net es im,
        env.sealedboxOpen (b64urlDecode ciphertext)
          (b64urlDecode request.publicKeyB64u)
          (b64urlDecode request.privateKeyB64u) = some decrypted ∧
        env.parsePayload decrypted = some payload ∧
        jsTruthyStr payload.walletAddress = true ∧
        resolveNetwork env.networks
          (normalizeChain (jsOr (some request.chain) "polygon")) = .ok net ∧
        payload.chainId = some (.fin net.chainId) ∧
        payload.explicitSession = some es ∧ jsTruthyStr es.pk = true ∧
        payload.implicit = some im ∧ jsTruthyStr im.pk = true ∧
        jsTruthyStr im.attestation = true ∧
        jsTruthyStr im.identitySignature = true := by
  simp only [ingestChecks] at h
  split at h
  next => simp at h
  next request hreq =>
  split at h
  next => simp at h
  next hfresh =>
  split at h
  next => simp at h
  next decrypted hopen =>
  split at h
  next => simp at h
  next payload hparse =>
  split at h
  next => simp at h
  next hwa =>
  split at h
  next => simp at h
  next cid hcid =>
  split at h
  next => simp at h
  next htr =>
  split at h
  next => simp at h
  next net hnet =>
  split at h
  next => simp at h
  next hmis =>
  split at h
  next => simp at h
  next es hes =>
  split at h
  next => simp at h
  next hpk =>
  split at h
  next => simp at h
  next im him =>
  split at h
  next => simp at h
  next htriple =>
  refine ⟨request, hreq, hfresh, decrypted, payload, net, es, im, hopen, hparse,
    ?_, hnet, ?_, hes, ?_, him, ?_, ?_, ?_⟩
  · simpa using hwa
  · have : cid = .fin net.chainId := by
      by_contra hne
      exact hmis hne
    rw [← this]; exact hcid
  · simpa using hpk
  · have := not_not.mp (fun hc => htriple hc)
    exact this.1
  · have := not_not.mp (fun hc => htriple hc)
    exact this.2.1
  · have := not_not.mp (fun hc => htriple hc)
    exact this.2.2

/-! ### C6 — ingestion is atomic -/

/-- C6: ingestion never partially writes: on any failure the store is
returned untouched, and a `WalletSession` is written (under the given name,
requests untouched) only when every check — request found, not expired,
decryption, payload parse, and all envelope validations — has passed. -/
theorem C6_ingestion_atomic (env : IngestEnv) (store : Store)
    (name ciphertext rid : String) (now : Int) :
    (∀ e, (decryptAndSaveSession env store name ciphertext rid now).2 = .error e →
      (decryptAndSaveSession env store name ciphertext rid now).1 = store) ∧
    (∀ r, (decryptAndSaveSession env store name ciphertext rid now).2 = .ok r →
      (∃ request, loadWalletRequest store rid = some request ∧
        ¬ ((dateParse request.expiresAt).isFinite = true ∧
          now > (dateParse request.expiresAt).toIntD) ∧
        ∃ decrypted payload net es im,
          env.sealedboxOpen (b64urlDecode ciphertext)
            (b64urlDecode request.publicKeyB64u)
            (b64urlDecode request.privateKeyB64u) = some decrypted ∧
          env.parsePayload decrypted = some payload ∧
          jsTruthyStr payload.walletAddress = true ∧
          resolveNetwork env.networks
            (normalizeChain (jsOr (some request.chain) "polygon")) = .ok net ∧
          payload.chainId = some (.fin net.chainId) ∧
          payload.explicitSession = some es ∧ jsTruthyStr es.pk = true ∧
          payload.implicit = some im ∧ jsTruthyStr im.pk = true ∧
          jsTruthyStr im.attestation = true ∧
          jsTruthyStr im.identitySignature = true) ∧
      (∃ sessionRec, (decryptAndSaveSession env store name ciphertext rid now).1 =
        saveWalletSession store name sessionRec) ∧
      (decryptAndSaveSession env store name ciphertext rid now).1.requests =
        store.requests) := by
  constructor
  · intro e he
    simp only [decryptAndSaveSession] at he ⊢
    cases hic : ingestChecks env store ciphertext rid now with
    | error e2 => simp only [hic]
    | ok pr =>
        obtain ⟨rec, res⟩ := pr
        rw [hic] at he
        simp at he
  · intro r hr
    simp only [decryptAndSaveSession] at hr ⊢
    cases hic : ingestChecks env store ciphertext rid now with
    | error e2 => rw [hic] at hr; simp at hr
    | ok pr =>
        obtain ⟨rec, res⟩ := pr
        refine ⟨ingestChecks_ok_inversion env store ciphertext rid now rec res hic,
          ⟨rec, rfl⟩, rfl⟩

/-- C6 witness: a failing ingestion leaves the store unchanged; a successful
one leaves the request table unchanged. -/
theorem C6_ingestion_atomic_witness :
    (decryptAndSaveSession sampleIngestEnv storeWithRequest "main" "CT" "bogus"
        5000).1 = storeWithRequest ∧
    (decryptAndSaveSession sampleIngestEnv storeWithRequest "main" "CT" "RID1"
        5000).1.requests = storeWithRequest.requests :=
  ⟨(C6_ingestion_atomic sampleIngestEnv storeWithRequest "main" "CT" "bogus"
      5000).1 (.requestNotFound "bogus") rfl,
   ((C6_ingestion_atomic sampleIngestEnv storeWithRequest "main" "CT" "RID1"
      5000).2 ⟨"0xwallet", 137, "polygon"⟩ rfl).2.2⟩

/-! ### C5 — envelope validation order and distinct errors -/

/-- C5: once a ciphertext decrypts and parses against a live request, the
envelope checks run in source order — wallet address, chain id, network
match against the request's declared chain (fatal, never auto-corrected),
explicit session material with its signing key, implicit session material
with signing key, attestation and identity signature — each failing with
its own distinct error.  Presence follows JavaScript truthiness (an empty
string or a zero/NaN number counts as missing), and "well-formed" for the
wallet address is the source's string-type check. -/
theorem C5_envelope_validation_order
    (env : IngestEnv) (store : Store) (name ciphertext rid : String) (now : Int)
    (request : WalletRequest) (decrypted : List Nat) (payload : Payload)
    (hreq : loadWalletRequest store rid = some request)
    (hfresh : ¬ ((dateParse request.expiresAt).isFinite = true ∧
      now > (dateParse request.expiresAt).toIntD))
    (hopen : env.sealedboxOpen (b64urlDecode ciphertext)
      (b64urlDecode request.publicKeyB64u)
      (b64urlDecode request.privateKeyB64u) = some decrypted)
    (hparse : env.parsePayload decrypted = some payload) :
    (jsTruthyStr payload.walletAddress = false →
      (decryptAndSaveSession env store name ciphertext rid now).2 =
        .error .missingWalletAddress) ∧
    (jsTruthyStr payload.walletAddress = true →
      jsTruthyNumOpt payload.chainId = false →
      (decryptAndSaveSession env store name ciphertext rid now).2 =
        .error .missingChainId) ∧
    (∀ cid net, jsTruthyStr payload.walletAddress = true →
      payload.chainId = some cid → cid.truthy = true →
      resolveNetwork env.networks
        (normalizeChain (jsOr (some request.chain) "polygon")) = .ok net →
      cid ≠ .fin net.chainId →
      (decryptAndSaveSession env store name ciphertext rid now).2 =
        .error (.chainMismatch
          (normalizeChain (jsOr (some request.chain) "polygon")) net.chainId cid)) ∧
    (∀ net, jsTruthyStr payload.walletAddress = true →
      resolveNetwork env.networks
        (normalizeChain (jsOr (some request.chain) "polygon")) = .ok net →
      payload.chainId = some (.fin net.chainId) → net.chainId ≠ 0 →
      payload.explicitSession = none →
      (decryptAndSaveSession env store name ciphertext rid now).2 =
        .error .missingExplicitSession) ∧
    (∀ net es, jsTruthyStr payload.walletAddress = true →
      resolveNetwork env.networks
        (normalizeChain (jsOr (some request.chain) "polygon")) = .ok net →
      payload.chainId = some (.fin net.chainId) → net.chainId ≠ 0 →
      payload.explicitSession = some es → jsTruthyStr es.pk = false →
      (decryptAndSaveSession env store name ciphertext rid now).2 =
        .error .missingExplicitPk) ∧
    (∀ net es, jsTruthyStr payload.walletAddress = true →
      resolveNetwork env.networks
        (normalizeChain (jsOr (some request.chain) "polygon")) = .ok net →
      payload.chainId = some (.fin net.chainId) → net.chainId ≠ 0 →
      payload.explicitSession = some es → jsTruthyStr es.pk = true →
      (payload.implicit = none ∨ ∃ im, payload.implicit = some im ∧
        ¬ (jsTruthyStr im.pk = true ∧ jsTruthyStr im.attestation = true ∧
           jsTruthyStr im.identitySignature = true)) →
      (decryptAndSaveSession env store name ciphertext rid now).2 =
        .error .missingImplicit) ∧
    (∀ ch ni pj,
      IngestErr.chainMismatch ch ni pj ≠ .missingWalletAddress ∧
      IngestErr.chainMismatch ch ni pj ≠ .missingChainId ∧
      IngestErr.chainMismatch ch ni pj ≠ .missingExplicitSession ∧
      IngestErr.chainMismatch ch ni pj ≠ .missingExplicitPk ∧
      IngestErr.chainMismatch ch ni pj ≠ .missingImplicit) ∧
    List.Pairwise (· ≠ ·)
      [IngestErr.missingWalletAddress, IngestErr.missingChainId,
       IngestErr.missingExplicitSession, IngestErr.missingExplicitPk,
       IngestErr.missingImplicit] := by
  refine ⟨?_, ?_, ?_, ?_, ?_, ?_, ?_, ?_⟩
  · intro hwa
    simp only [decryptAndSaveSession, ingestChecks, hreq]
    rw [if_neg hfresh]
    simp only [hopen, hparse]
    rw [if_pos (by simp [hwa])]
  · intro hwa hcid
    simp only [decryptAndSaveSession, ingestChecks, hreq]
    rw [if_neg hfresh]
    simp only [hopen, hparse]
    rw [if_neg (by simp [hwa])]
    cases hc : payload.chainId with
    | none => simp only [hc]
    | some n =>
        have hn : n.truthy = false := by
          have := hcid
          rw [hc] at this
          simpa [jsTruthyNumOpt] using this
        simp only [hc]
        rw [if_pos (by simp [hn])]
  · intro cid net hwa hc htr hnet hne
    simp only [decryptAndSaveSession, ingestChecks, hreq]
    rw [if_neg hfresh]
    simp only [hopen, hparse]
    rw [if_neg (by simp [hwa])]
    simp only [hc]
    rw [if_neg (by simp [htr])]
    simp only [hnet]
    rw [if_pos hne]
  · intro net hwa hnet hc hnz hex
    simp only [decryptAndSaveSession, ingestChecks, hreq]
    rw [if_neg hfresh]
    simp only [hopen, hparse]
    rw [if_neg (by simp [hwa])]
    simp only [hc]
    rw [if_neg (by simp [JsNumber.truthy, hnz])]
    simp only [hnet]
    rw [if_neg (by simp)]
    simp only [hex]
  · intro net es hwa hnet hc hnz hes hpk
    simp only [decryptAndSaveSession, ingestChecks, hreq]
    rw [if_neg hfresh]
    simp only [hopen, hparse]
    rw [if_neg (by simp [hwa])]
    simp only [hc]
    rw [if_neg (by simp [JsNumber.truthy, hnz])]
    simp only [hnet]
    rw [if_neg (by simp)]
    simp only [hes]
    rw [if_pos (by simp [hpk])]
  · intro net es hwa hnet hc hnz hes hpk him
    simp only [decryptAndSaveSession, ingestChecks, hreq]
    rw [if_neg hfresh]
    simp only [hopen, hparse]
    rw [if_neg (by simp [hwa])]
    simp only [hc]
    rw [if_neg (by simp [JsNumber.truthy, hnz])]
    simp only [hnet]
    rw [if_neg (by simp)]
    simp only [hes]
    rw [if_neg (by simp [hpk])]
    rcases him with hnone | ⟨im, himv, hbad⟩
    · simp only [hnone]
    · simp only [himv]
      rw [if_pos hbad]
  · intro ch ni pj
    exact ⟨by simp, by simp, by simp, by simp, by simp⟩
  · decide

/-- C5 witness: a payload whose `chainId` is 1 against a `polygon` request
is rejected with the chain-mismatch error even though every other field is
valid. -/
theorem C5_envelope_validation_order_witness :
    (decryptAndSaveSession
        { sampleIngestEnv with
            parsePayload :=
              fun _ => some { samplePayload with chainId := some (.fin 1) } }
        storeWithRequest "main" "CT" "RID1" 5000).2 =
      .error (.chainMismatch "polygon" 137 (.fin 1)) :=
  (C5_envelope_validation_order
      { sampleIngestEnv with
          parsePayload :=
            fun _ => some { samplePayload with chainId := some (.fin 1) } }
      storeWithRequest "main" "CT" "RID1" 5000 sampleRequest [123]
      { samplePayload with chainId := some (.fin 1) }
      rfl (by decide) rfl rfl).2.2.1 (.fin 1) ⟨137, "Polygon"⟩ rfl rfl rfl rfl
    (by decide)
